import Mathlib

/-! # gparch: a libretro front end on top of gfxprim

A shallow embedding of `src/gparch.c` and `src/keymap.h`.

* Static variables of `gparch.c` (`alsa_pcm`, `pixel_type`, `joypad_keys`,
  `mouse_state`, `should_exit`, `keyboard_callback`) are the fields of `Host`.
* Calls into the core, into gfxprim and into ALSA are recorded, in order, in
  the `log` field of `Host`; what such a call returns is an explicit argument
  of the function that makes the call.
* A function that can hit undefined behaviour in C (out-of-bounds array read,
  division by zero, access through a pointer that is not allocated) or that
  terminates the process returns `Option`; `none` is that outcome.
* `unsigned`/`int` arithmetic of `core_video_refresh` is `Nat`/`Int` with
  explicit `% 2^32`; `size_t` arithmetic is `Nat`.
* The numeric constants come from `libretro.h` and from the gfxprim headers,
  which the two source files include.
-/

namespace Gparch

/-! ## Constants of `libretro.h` -/

def RETRO_DEVICE_NONE : Nat := 0
def RETRO_DEVICE_JOYPAD : Nat := 1
def RETRO_DEVICE_MOUSE : Nat := 2
def RETRO_DEVICE_KEYBOARD : Nat := 3

def RETRO_DEVICE_ID_JOYPAD_B : Nat := 0
def RETRO_DEVICE_ID_JOYPAD_Y : Nat := 1
def RETRO_DEVICE_ID_JOYPAD_SELECT : Nat := 2
def RETRO_DEVICE_ID_JOYPAD_START : Nat := 3
def RETRO_DEVICE_ID_JOYPAD_UP : Nat := 4
def RETRO_DEVICE_ID_JOYPAD_DOWN : Nat := 5
def RETRO_DEVICE_ID_JOYPAD_LEFT : Nat := 6
def RETRO_DEVICE_ID_JOYPAD_RIGHT : Nat := 7
def RETRO_DEVICE_ID_JOYPAD_A : Nat := 8
def RETRO_DEVICE_ID_JOYPAD_X : Nat := 9
def RETRO_DEVICE_ID_JOYPAD_L : Nat := 10
def RETRO_DEVICE_ID_JOYPAD_R : Nat := 11
def RETRO_DEVICE_ID_JOYPAD_L2 : Nat := 12
def RETRO_DEVICE_ID_JOYPAD_R2 : Nat := 13
def RETRO_DEVICE_ID_JOYPAD_L3 : Nat := 14
def RETRO_DEVICE_ID_JOYPAD_R3 : Nat := 15

def RETRO_DEVICE_ID_MOUSE_RIGHT : Nat := 3

def RETRO_DEVICE_ID_POINTER_X : Nat := 0
def RETRO_DEVICE_ID_POINTER_Y : Nat := 1
def RETRO_DEVICE_ID_POINTER_PRESSED : Nat := 2
def RETRO_DEVICE_ID_POINTER_COUNT : Nat := 3

def RETRO_PIXEL_FORMAT_0RGB1555 : Nat := 0
def RETRO_PIXEL_FORMAT_XRGB8888 : Nat := 1
def RETRO_PIXEL_FORMAT_RGB565 : Nat := 2

def RETRO_LOG_DEBUG : Nat := 0
def RETRO_LOG_INFO : Nat := 1
def RETRO_LOG_WARN : Nat := 2
def RETRO_LOG_ERROR : Nat := 3

def RETRO_ENVIRONMENT_GET_CAN_DUPE : Nat := 3
def RETRO_ENVIRONMENT_GET_SYSTEM_DIRECTORY : Nat := 9
def RETRO_ENVIRONMENT_SET_PIXEL_FORMAT : Nat := 10
def RETRO_ENVIRONMENT_SET_KEYBOARD_CALLBACK : Nat := 12
def RETRO_ENVIRONMENT_GET_LOG_INTERFACE : Nat := 27
def RETRO_ENVIRONMENT_GET_SAVE_DIRECTORY : Nat := 31
def RETRO_ENVIRONMENT_SET_CONTROLLER_INFO : Nat := 35

/-! `enum retro_key` -/

def RETROK_UNKNOWN : Nat := 0
def RETROK_BACKSPACE : Nat := 8
def RETROK_TAB : Nat := 9
def RETROK_RETURN : Nat := 13
def RETROK_PAUSE : Nat := 19
def RETROK_ESCAPE : Nat := 27
def RETROK_SPACE : Nat := 32
def RETROK_COMMA : Nat := 44
def RETROK_MINUS : Nat := 45
def RETROK_PERIOD : Nat := 46
def RETROK_SLASH : Nat := 47
def RETROK_0 : Nat := 48
def RETROK_1 : Nat := 49
def RETROK_2 : Nat := 50
def RETROK_3 : Nat := 51
def RETROK_4 : Nat := 52
def RETROK_5 : Nat := 53
def RETROK_6 : Nat := 54
def RETROK_7 : Nat := 55
def RETROK_8 : Nat := 56
def RETROK_9 : Nat := 57
def RETROK_SEMICOLON : Nat := 59
def RETROK_EQUALS : Nat := 61
def RETROK_BACKSLASH : Nat := 92
def RETROK_BACKQUOTE : Nat := 96
def RETROK_a : Nat := 97
def RETROK_b : Nat := 98
def RETROK_c : Nat := 99
def RETROK_d : Nat := 100
def RETROK_e : Nat := 101
def RETROK_f : Nat := 102
def RETROK_g : Nat := 103
def RETROK_h : Nat := 104
def RETROK_i : Nat := 105
def RETROK_j : Nat := 106
def RETROK_k : Nat := 107
def RETROK_l : Nat := 108
def RETROK_m : Nat := 109
def RETROK_n : Nat := 110
def RETROK_o : Nat := 111
def RETROK_p : Nat := 112
def RETROK_q : Nat := 113
def RETROK_r : Nat := 114
def RETROK_s : Nat := 115
def RETROK_t : Nat := 116
def RETROK_u : Nat := 117
def RETROK_v : Nat := 118
def RETROK_w : Nat := 119
def RETROK_x : Nat := 120
def RETROK_y : Nat := 121
def RETROK_z : Nat := 122
def RETROK_LEFTBRACE : Nat := 123
def RETROK_RIGHTBRACE : Nat := 125
def RETROK_DELETE : Nat := 127
def RETROK_KP0 : Nat := 256
def RETROK_KP1 : Nat := 257
def RETROK_KP2 : Nat := 258
def RETROK_KP3 : Nat := 259
def RETROK_KP4 : Nat := 260
def RETROK_KP5 : Nat := 261
def RETROK_KP6 : Nat := 262
def RETROK_KP7 : Nat := 263
def RETROK_KP8 : Nat := 264
def RETROK_KP9 : Nat := 265
def RETROK_KP_PERIOD : Nat := 266
def RETROK_KP_DIVIDE : Nat := 267
def RETROK_KP_MULTIPLY : Nat := 268
def RETROK_KP_MINUS : Nat := 269
def RETROK_KP_PLUS : Nat := 270
def RETROK_KP_ENTER : Nat := 271
def RETROK_KP_EQUALS : Nat := 272
def RETROK_UP : Nat := 273
def RETROK_DOWN : Nat := 274
def RETROK_RIGHT : Nat := 275
def RETROK_LEFT : Nat := 276
def RETROK_INSERT : Nat := 277
def RETROK_HOME : Nat := 278
def RETROK_END : Nat := 279
def RETROK_PAGEUP : Nat := 280
def RETROK_PAGEDOWN : Nat := 281
def RETROK_F1 : Nat := 282
def RETROK_F2 : Nat := 283
def RETROK_F3 : Nat := 284
def RETROK_F4 : Nat := 285
def RETROK_F5 : Nat := 286
def RETROK_F6 : Nat := 287
def RETROK_F7 : Nat := 288
def RETROK_F8 : Nat := 289
def RETROK_F9 : Nat := 290
def RETROK_F10 : Nat := 291
def RETROK_F11 : Nat := 292
def RETROK_F12 : Nat := 293
def RETROK_F13 : Nat := 294
def RETROK_F14 : Nat := 295
def RETROK_F15 : Nat := 296
def RETROK_RSHIFT : Nat := 303
def RETROK_LSHIFT : Nat := 304
def RETROK_RCTRL : Nat := 305
def RETROK_LCTRL : Nat := 306
def RETROK_RALT : Nat := 307
def RETROK_LALT : Nat := 308
def RETROK_RMETA : Nat := 309
def RETROK_LMETA : Nat := 310
def RETROK_LAST : Nat := 324

/-! ## Constants of the gfxprim input headers -/

def GP_EV_KEY : Nat := 1
def GP_EV_REL : Nat := 2
def GP_EV_SYS : Nat := 4

def GP_EV_KEY_UP : Nat := 0
def GP_EV_KEY_DOWN : Nat := 1
def GP_EV_KEY_REPEAT : Nat := 2

def GP_EV_REL_POS : Nat := 0

def GP_EV_SYS_QUIT : Nat := 0
def GP_EV_SYS_RESIZE : Nat := 1

def GP_KEY_ESC : Nat := 1
def GP_KEY_1 : Nat := 2
def GP_KEY_2 : Nat := 3
def GP_KEY_3 : Nat := 4
def GP_KEY_4 : Nat := 5
def GP_KEY_5 : Nat := 6
def GP_KEY_6 : Nat := 7
def GP_KEY_7 : Nat := 8
def GP_KEY_8 : Nat := 9
def GP_KEY_9 : Nat := 10
def GP_KEY_0 : Nat := 11
def GP_KEY_MINUS : Nat := 12
def GP_KEY_EQUAL : Nat := 13
def GP_KEY_BACKSPACE : Nat := 14
def GP_KEY_TAB : Nat := 15
def GP_KEY_Q : Nat := 16
def GP_KEY_W : Nat := 17
def GP_KEY_E : Nat := 18
def GP_KEY_R : Nat := 19
def GP_KEY_T : Nat := 20
def GP_KEY_Y : Nat := 21
def GP_KEY_U : Nat := 22
def GP_KEY_I : Nat := 23
def GP_KEY_O : Nat := 24
def GP_KEY_P : Nat := 25
def GP_KEY_LEFT_BRACE : Nat := 26
def GP_KEY_RIGHT_BRACE : Nat := 27
def GP_KEY_ENTER : Nat := 28
def GP_KEY_LEFT_CTRL : Nat := 29
def GP_KEY_A : Nat := 30
def GP_KEY_S : Nat := 31
def GP_KEY_D : Nat := 32
def GP_KEY_F : Nat := 33
def GP_KEY_G : Nat := 34
def GP_KEY_H : Nat := 35
def GP_KEY_J : Nat := 36
def GP_KEY_K : Nat := 37
def GP_KEY_L : Nat := 38
def GP_KEY_SEMICOLON : Nat := 39
def GP_KEY_GRAVE : Nat := 41
def GP_KEY_LEFT_SHIFT : Nat := 42
def GP_KEY_BACKSLASH : Nat := 43
def GP_KEY_Z : Nat := 44
def GP_KEY_X : Nat := 45
def GP_KEY_C : Nat := 46
def GP_KEY_V : Nat := 47
def GP_KEY_B : Nat := 48
def GP_KEY_N : Nat := 49
def GP_KEY_M : Nat := 50
def GP_KEY_COMMA : Nat := 51
def GP_KEY_DOT : Nat := 52
def GP_KEY_SLASH : Nat := 53
def GP_KEY_RIGHT_SHIFT : Nat := 54
def GP_KEY_KP_ASTERISK : Nat := 55
def GP_KEY_LEFT_ALT : Nat := 56
def GP_KEY_SPACE : Nat := 57
def GP_KEY_CAPS_LOCK : Nat := 58
def GP_KEY_F1 : Nat := 59
def GP_KEY_F2 : Nat := 60
def GP_KEY_F3 : Nat := 61
def GP_KEY_F4 : Nat := 62
def GP_KEY_F5 : Nat := 63
def GP_KEY_F6 : Nat := 64
def GP_KEY_F7 : Nat := 65
def GP_KEY_F8 : Nat := 66
def GP_KEY_F9 : Nat := 67
def GP_KEY_F10 : Nat := 68
def GP_KEY_KP_7 : Nat := 71
def GP_KEY_KP_8 : Nat := 72
def GP_KEY_KP_9 : Nat := 73
def GP_KEY_KP_MINUS : Nat := 74
def GP_KEY_KP_4 : Nat := 75
def GP_KEY_KP_5 : Nat := 76
def GP_KEY_KP_6 : Nat := 77
def GP_KEY_KP_PLUS : Nat := 78
def GP_KEY_KP_1 : Nat := 79
def GP_KEY_KP_2 : Nat := 80
def GP_KEY_KP_3 : Nat := 81
def GP_KEY_KP_0 : Nat := 82
def GP_KEY_KP_DOT : Nat := 83
def GP_KEY_F11 : Nat := 87
def GP_KEY_F12 : Nat := 88
def GP_KEY_KP_ENTER : Nat := 96
def GP_KEY_RIGHT_CTRL : Nat := 97
def GP_KEY_KP_SLASH : Nat := 98
def GP_KEY_RIGHT_ALT : Nat := 100
def GP_KEY_HOME : Nat := 102
def GP_KEY_UP : Nat := 103
def GP_KEY_PAGE_UP : Nat := 104
def GP_KEY_LEFT : Nat := 105
def GP_KEY_RIGHT : Nat := 106
def GP_KEY_END : Nat := 107
def GP_KEY_DOWN : Nat := 108
def GP_KEY_PAGE_DOWN : Nat := 109
def GP_KEY_INSERT : Nat := 110
def GP_KEY_DELETE : Nat := 111
def GP_KEY_KP_EQUAL : Nat := 117
def GP_KEY_PAUSE : Nat := 119
def GP_KEY_LEFT_META : Nat := 125
def GP_KEY_RIGHT_META : Nat := 126
def GP_KEY_F13 : Nat := 183
def GP_KEY_F14 : Nat := 184
def GP_KEY_F15 : Nat := 185
def GP_BTN_LEFT : Nat := 272

/-- The `gp_pixel_type` values that `gparch.c` uses. -/
inductive gp_pixel_type where
  | GP_PIXEL_UNKNOWN
  | GP_PIXEL_xRGB8888
  | GP_PIXEL_RGB565
  deriving DecidableEq, Repr

open gp_pixel_type

/-! ## `keymap.h` -/

/-- The case labels of the switch in `map_key` with the value each returns,
in source order. -/
def map_key_cases : List (Nat × Nat) :=
  [ (GP_KEY_BACKSPACE, RETROK_BACKSPACE),
    (GP_KEY_TAB, RETROK_TAB),
    (GP_KEY_ENTER, RETROK_RETURN),
    (GP_KEY_PAUSE, RETROK_PAUSE),
    (GP_KEY_ESC, RETROK_ESCAPE),
    (GP_KEY_SPACE, RETROK_SPACE),
    (GP_KEY_COMMA, RETROK_COMMA),
    (GP_KEY_MINUS, RETROK_MINUS),
    (GP_KEY_DOT, RETROK_PERIOD),
    (GP_KEY_SLASH, RETROK_SLASH),
    (GP_KEY_0, RETROK_0),
    (GP_KEY_1, RETROK_1),
    (GP_KEY_2, RETROK_2),
    (GP_KEY_3, RETROK_3),
    (GP_KEY_4, RETROK_4),
    (GP_KEY_5, RETROK_5),
    (GP_KEY_6, RETROK_6),
    (GP_KEY_7, RETROK_7),
    (GP_KEY_8, RETROK_8),
    (GP_KEY_9, RETROK_9),
    (GP_KEY_SEMICOLON, RETROK_SEMICOLON),
    (GP_KEY_EQUAL, RETROK_EQUALS),
    (GP_KEY_BACKSLASH, RETROK_BACKSLASH),
    (GP_KEY_GRAVE, RETROK_BACKQUOTE),
    (GP_KEY_A, RETROK_a),
    (GP_KEY_B, RETROK_b),
    (GP_KEY_C, RETROK_c),
    (GP_KEY_D, RETROK_d),
    (GP_KEY_E, RETROK_e),
    (GP_KEY_F, RETROK_f),
    (GP_KEY_G, RETROK_g),
    (GP_KEY_H, RETROK_h),
    (GP_KEY_I, RETROK_i),
    (GP_KEY_J, RETROK_j),
    (GP_KEY_K, RETROK_k),
    (GP_KEY_L, RETROK_l),
    (GP_KEY_M, RETROK_m),
    (GP_KEY_N, RETROK_n),
    (GP_KEY_O, RETROK_o),
    (GP_KEY_P, RETROK_p),
    (GP_KEY_Q, RETROK_q),
    (GP_KEY_R, RETROK_r),
    (GP_KEY_S, RETROK_s),
    (GP_KEY_T, RETROK_t),
    (GP_KEY_U, RETROK_u),
    (GP_KEY_V, RETROK_v),
    (GP_KEY_W, RETROK_w),
    (GP_KEY_X, RETROK_x),
    (GP_KEY_Y, RETROK_y),
    (GP_KEY_Z, RETROK_z),
    (GP_KEY_LEFT_BRACE, RETROK_LEFTBRACE),
    (GP_KEY_RIGHT_BRACE, RETROK_RIGHTBRACE),
    (GP_KEY_DELETE, RETROK_DELETE),
    (GP_KEY_KP_0, RETROK_KP0),
    (GP_KEY_KP_1, RETROK_KP1),
    (GP_KEY_KP_2, RETROK_KP2),
    (GP_KEY_KP_3, RETROK_KP3),
    (GP_KEY_KP_4, RETROK_KP4),
    (GP_KEY_KP_5, RETROK_KP5),
    (GP_KEY_KP_6, RETROK_KP6),
    (GP_KEY_KP_7, RETROK_KP7),
    (GP_KEY_KP_8, RETROK_KP8),
    (GP_KEY_KP_9, RETROK_KP9),
    (GP_KEY_KP_DOT, RETROK_KP_PERIOD),
    (GP_KEY_KP_SLASH, RETROK_KP_DIVIDE),
    (GP_KEY_KP_ASTERISK, RETROK_KP_MULTIPLY),
    (GP_KEY_KP_MINUS, RETROK_KP_MINUS),
    (GP_KEY_KP_PLUS, RETROK_KP_PLUS),
    (GP_KEY_KP_ENTER, RETROK_KP_ENTER),
    (GP_KEY_KP_EQUAL, RETROK_KP_EQUALS),
    (GP_KEY_UP, RETROK_UP),
    (GP_KEY_DOWN, RETROK_DOWN),
    (GP_KEY_RIGHT, RETROK_RIGHT),
    (GP_KEY_LEFT, RETROK_LEFT),
    (GP_KEY_INSERT, RETROK_INSERT),
    (GP_KEY_HOME, RETROK_HOME),
    (GP_KEY_END, RETROK_END),
    (GP_KEY_PAGE_UP, RETROK_PAGEUP),
    (GP_KEY_PAGE_DOWN, RETROK_PAGEDOWN),
    (GP_KEY_F1, RETROK_F1),
    (GP_KEY_F2, RETROK_F2),
    (GP_KEY_F3, RETROK_F3),
    (GP_KEY_F4, RETROK_F4),
    (GP_KEY_F5, RETROK_F5),
    (GP_KEY_F6, RETROK_F6),
    (GP_KEY_F7, RETROK_F7),
    (GP_KEY_F8, RETROK_F8),
    (GP_KEY_F9, RETROK_F9),
    (GP_KEY_F10, RETROK_F10),
    (GP_KEY_F11, RETROK_F11),
    (GP_KEY_F12, RETROK_F12),
    (GP_KEY_F13, RETROK_F13),
    (GP_KEY_F14, RETROK_F14),
    (GP_KEY_F15, RETROK_F15),
    (GP_KEY_RIGHT_SHIFT, RETROK_RSHIFT),
    (GP_KEY_LEFT_SHIFT, RETROK_LSHIFT),
    (GP_KEY_RIGHT_CTRL, RETROK_RCTRL),
    (GP_KEY_LEFT_CTRL, RETROK_LCTRL),
    (GP_KEY_LEFT_ALT, RETROK_LALT),
    (GP_KEY_RIGHT_ALT, RETROK_RALT),
    (GP_KEY_RIGHT_META, RETROK_RMETA),
    (GP_KEY_LEFT_META, RETROK_LMETA) ]

/-- Function `map_key` of `keymap.h`: the switch selects the case whose label equals
`key`, `default` returns `RETROK_UNKNOWN`. -/
def map_key (key : Nat) : Nat :=
  match map_key_cases.lookup key with
  | some k => k
  | none => RETROK_UNKNOWN

/-! ## `gparch.c`: input -/

/-- Function `map_joypad_key` of `gparch.c`. -/
def map_joypad_key (key : Nat) : Int :=
  if key = GP_KEY_A then RETRO_DEVICE_ID_JOYPAD_A
  else if key = GP_KEY_B then RETRO_DEVICE_ID_JOYPAD_B
  else if key = GP_KEY_L then RETRO_DEVICE_ID_JOYPAD_L
  else if key = GP_KEY_R then RETRO_DEVICE_ID_JOYPAD_R
  else if key = GP_KEY_X then RETRO_DEVICE_ID_JOYPAD_X
  else if key = GP_KEY_Y then RETRO_DEVICE_ID_JOYPAD_Y
  else if key = GP_KEY_UP then RETRO_DEVICE_ID_JOYPAD_UP
  else if key = GP_KEY_DOWN then RETRO_DEVICE_ID_JOYPAD_DOWN
  else if key = GP_KEY_LEFT then RETRO_DEVICE_ID_JOYPAD_LEFT
  else if key = GP_KEY_RIGHT then RETRO_DEVICE_ID_JOYPAD_RIGHT
  else if key = GP_KEY_ENTER then RETRO_DEVICE_ID_JOYPAD_START
  else if key = GP_KEY_BACKSPACE then RETRO_DEVICE_ID_JOYPAD_SELECT
  else -1

/-- The fields of `gp_event` that `gparch.c` reads; `cursor_x` and `cursor_y`
are `ev->st->cursor_x` and `ev->st->cursor_y`. -/
structure gp_event where
  type : Nat
  code : Nat
  val : Nat
  cursor_x : Nat
  cursor_y : Nat
  deriving DecidableEq, Repr

/-- The arguments of `gp_pixmap_init_ex` together with the bytes found at the
pixel pointer when the pixmap is handed to gfxprim. -/
structure gp_pixmap where
  w : Nat
  h : Nat
  pixel_type : gp_pixel_type
  bytes_per_row : Nat
  pixels : List Nat
  deriving DecidableEq, Repr

/-- A call that leaves `gparch.c`: into the core, into gfxprim or into ALSA. -/
inductive ExtCall where
  | retro_set_controller_port_device (port device : Nat)
  | keyboard_callback (down : Bool) (keycode character key_modifiers : Nat)
  | gp_backend_resize_ack
  | gp_fill (color : Nat)
  | gp_sub_pixmap (x y : Int) (w h : Nat)
  | gp_pixmap_convert_alloc (src : gp_pixmap)
  | gp_filter_resize
  | gp_pixmap_free
  | gp_blit_xyxy (src : gp_pixmap) (x0 y0 x1 y1 x y : Int)
  | gp_backend_flip
  | snd_pcm_open
  | snd_pcm_set_params (rate : Int)
  | snd_pcm_writei (buf : List Int) (frames : Nat)
  | snd_pcm_recover (err : Int)
  deriving DecidableEq, Repr

/-- Byte buffers of the process, addressed by their index; `none` is a buffer
that has been freed. A pointer is the index of a buffer (its first byte). -/
abbrev Heap := List (Option (List Nat))

/-- The static variables of `gparch.c`, the byte buffers of the process and the
calls made so far. -/
structure Host where
  alsa_pcm : Option Nat
  pixel_type : gp_pixel_type
  joypad_keys : List Nat
  mouse_state : List Int
  should_exit : Int
  keyboard_callback : Option Nat
  heap : Heap
  log : List ExtCall
  deriving DecidableEq, Repr

/-- The state at program start: static storage is zero-initialised,
`joypad_keys` has `RETRO_DEVICE_ID_JOYPAD_R3+1` entries and `mouse_state` has
`RETRO_DEVICE_ID_POINTER_COUNT` entries. -/
def Host.start : Host where
  alsa_pcm := none
  pixel_type := GP_PIXEL_UNKNOWN
  joypad_keys := List.replicate (RETRO_DEVICE_ID_JOYPAD_R3 + 1) 0
  mouse_state := List.replicate RETRO_DEVICE_ID_POINTER_COUNT 0
  should_exit := 0
  keyboard_callback := none
  heap := []
  log := []

/-- Appends one outgoing call to the log. -/
def Host.call (s : Host) (c : ExtCall) : Host :=
  { s with log := s.log ++ [c] }

/-- Conversion of an unsigned value to `int16_t`. -/
def to_int16 (v : Nat) : Int :=
  if v % 65536 < 32768 then (v % 65536 : Nat) else ((v % 65536 : Nat) : Int) - 65536

/-- Conversion of an unsigned value to `int` (32 bits). -/
def to_int32 (v : Nat) : Int :=
  if v % 2 ^ 32 < 2 ^ 31 then (v % 2 ^ 32 : Nat) else ((v % 2 ^ 32 : Nat) : Int) - 2 ^ 32

/-- Function `scale_mouse_coords` of `gparch.c`. -/
def scale_mouse_coords (_pos _max : Nat) : Int := 0

/-- Function `handle_keyboard_callback` of `gparch.c`. -/
def handle_keyboard_callback (s : Host) (ev : gp_event) : Host :=
  match s.keyboard_callback with
  | none => s
  | some _ =>
    if ev.code = GP_EV_KEY_REPEAT then s
    else
      let key := map_key ev.val
      if key = RETROK_UNKNOWN then s
      else s.call (ExtCall.keyboard_callback (ev.code != 0) key 0 0)

/-- The body of the `while` loop of `core_input_poll`, for one event returned
by `gp_backend_ev_poll`. -/
def core_input_poll_body (s : Host) (ev : gp_event) : Host :=
  if ev.type = GP_EV_REL then
    if ev.code = GP_EV_REL_POS then
      let s1 := { s with mouse_state :=
        s.mouse_state.set RETRO_DEVICE_ID_POINTER_X (scale_mouse_coords ev.cursor_x 0) }
      { s1 with mouse_state :=
        s1.mouse_state.set RETRO_DEVICE_ID_POINTER_Y (scale_mouse_coords ev.cursor_y 0) }
    else s
  else if ev.type = GP_EV_KEY then
    let s1 := handle_keyboard_callback s ev
    let s2 :=
      if ev.val = GP_BTN_LEFT then
        { s1 with mouse_state :=
          s1.mouse_state.set RETRO_DEVICE_ID_POINTER_PRESSED (if ev.code ≠ 0 then 1 else 0) }
      else s1
    let joypad_key := map_joypad_key ev.val
    if joypad_key = -1 then s2
    else if ev.code ≠ 0 then
      { s2 with joypad_keys := s2.joypad_keys.set joypad_key.toNat 1 }
    else
      { s2 with joypad_keys := s2.joypad_keys.set joypad_key.toNat 0 }
  else if ev.type = GP_EV_SYS then
    if ev.code = GP_EV_SYS_QUIT then { s with should_exit := 1 }
    else if ev.code = GP_EV_SYS_RESIZE then s.call ExtCall.gp_backend_resize_ack
    else s
  else s

/-- Function `core_input_poll` of `gparch.c`; `queue` holds the events that the
successive calls of `gp_backend_ev_poll` return before it returns `NULL`. -/
def core_input_poll (s : Host) (queue : List gp_event) : Host :=
  queue.foldl core_input_poll_body s

/-- Function `core_input_state` of `gparch.c`; `none` is a read past the end of
`joypad_keys` or `mouse_state`. -/
def core_input_state (s : Host) (port device index id : Nat) : Option Int :=
  if port ≠ 0 ∨ index ≠ 0 then some 0
  else if device = RETRO_DEVICE_JOYPAD then (s.joypad_keys[id]?).map to_int16
  else if device = RETRO_DEVICE_MOUSE then s.mouse_state[id]?
  else some 0

/-! ## `gparch.c`: audio -/

/-- Function `audio_init` of `gparch.c`. `open_err` is what `snd_pcm_open` returns and
`handle` the handle it stores in `alsa_pcm` when it succeeds (on failure it
stores nothing); `set_params_err` is what `snd_pcm_set_params` returns. -/
def audio_init (s : Host) (frequency : Int) (open_err : Int) (handle : Nat)
    (set_params_err : Int) : Int × Host :=
  let s1 := s.call ExtCall.snd_pcm_open
  if open_err < 0 then (1, s1)
  else
    let s2 := { s1 with alsa_pcm := some handle }
    let s3 := s2.call (ExtCall.snd_pcm_set_params frequency)
    if set_params_err < 0 then (1, s3) else (0, s3)

/-- Function `audio_write` of `gparch.c`; `writei_ret` is what `snd_pcm_writei`
returns. -/
def audio_write (s : Host) (buf : List Int) (frames : Nat) (writei_ret : Int) : Nat × Host :=
  match s.alsa_pcm with
  | none => (0, s)
  | some _ =>
    let s1 := s.call (ExtCall.snd_pcm_writei buf frames)
    let written := writei_ret
    if written < 0 then (0, s1.call (ExtCall.snd_pcm_recover written))
    else (written.toNat, s1)

/-- Function `core_audio_sample` of `gparch.c`. -/
def core_audio_sample (s : Host) (left right : Int) (writei_ret : Int) : Host :=
  (audio_write s [left, right] 1 writei_ret).2

/-- Function `core_audio_sample_batch` of `gparch.c`. -/
def core_audio_sample_batch (s : Host) (data : List Int) (frames : Nat) (writei_ret : Int) :
    Nat × Host :=
  audio_write s data frames writei_ret

/-! ## `gparch.c`: the environment callback -/

/-- Function `core_log` of `gparch.c`. `none` is the end of the process: `exit` at
`RETRO_LOG_ERROR`, or a read past the four entries of `levelstr`. -/
def core_log (s : Host) (level : Nat) : Option Host :=
  if level = 0 then some s
  else if 4 ≤ level then none
  else if level = RETRO_LOG_ERROR then none
  else some s

/-- The `id` field of `struct retro_controller_description`; the `desc` string
is only printed. -/
structure retro_controller_description where
  id : Nat
  deriving DecidableEq, Repr

/-- The `struct retro_controller_info` of `libretro.h`; `types = none` is the
null pointer that ends the port list. -/
structure retro_controller_info where
  types : Option (List retro_controller_description)
  num_types : Nat
  deriving DecidableEq, Repr

/-- The `for` loop of `handle_controller_info` for one port: `num_types`
rounds, each looking at `desc->id`, where `desc` stays `ports[port].types`.
The pair is `keyboard_plugged` and the state. -/
def handle_controller_info_types (desc : List retro_controller_description) (num_types : Nat)
    (port : Nat) (acc : Bool × Host) : Bool × Host :=
  (List.range num_types).foldl
    (fun (a : Bool × Host) (_i : Nat) =>
      if (desc.head?.map (fun d => d.id)) = some RETRO_DEVICE_KEYBOARD ∧ a.1 = false then
        (true, a.2.call (ExtCall.retro_set_controller_port_device port RETRO_DEVICE_KEYBOARD))
      else a)
    acc

/-- The `while` loop of `handle_controller_info`, from port number `port` on.
The list is what follows `ports[port]`; the loop ends at the first entry whose
`types` is null. -/
def handle_controller_info_loop :
    List retro_controller_info → Nat → Bool × Host → Bool × Host
  | [], _, acc => acc
  | p :: rest, port, acc =>
    match p.types with
    | none => acc
    | some desc =>
      handle_controller_info_loop rest (port + 1)
        (handle_controller_info_types desc p.num_types port acc)

/-- Function `handle_controller_info` of `gparch.c`. -/
def handle_controller_info (s : Host) (ports : List retro_controller_info) : Host :=
  (handle_controller_info_loop ports 0 (false, s)).2

/-- Function `set_keyboard_callback` of `gparch.c`. -/
def set_keyboard_callback (s : Host) (callback : Option Nat) : Host :=
  { s with keyboard_callback := callback }

/-- What `data` points to in a call of `core_environment`, one field for each
command that reads it. -/
structure EnvData where
  format : Nat
  ports : List retro_controller_info
  callback : Option Nat
  deriving DecidableEq, Repr

/-- What `core_environment` stores through `data`. -/
inductive EnvOut where
  | nothing
  | log_callback
  | bool_true
  | dot_path
  deriving DecidableEq, Repr

/-- The outcome of `core_environment`: the value returned, what was stored
through `data`, and the state. -/
structure EnvResult where
  ret : Bool
  out : EnvOut
  host : Host
  deriving DecidableEq, Repr

/-- Function `core_environment` of `gparch.c`. -/
def core_environment (s : Host) (cmd : Nat) (data : EnvData) : Option EnvResult :=
  if cmd = RETRO_ENVIRONMENT_GET_LOG_INTERFACE then
    some ⟨true, EnvOut.log_callback, s⟩
  else if cmd = RETRO_ENVIRONMENT_GET_CAN_DUPE then
    some ⟨true, EnvOut.bool_true, s⟩
  else if cmd = RETRO_ENVIRONMENT_SET_PIXEL_FORMAT then
    let format := data.format
    if format = RETRO_PIXEL_FORMAT_0RGB1555 then
      some ⟨false, EnvOut.nothing, s⟩
    else if format = RETRO_PIXEL_FORMAT_XRGB8888 then
      some ⟨true, EnvOut.nothing, { s with pixel_type := GP_PIXEL_xRGB8888 }⟩
    else if format = RETRO_PIXEL_FORMAT_RGB565 then
      some ⟨true, EnvOut.nothing, { s with pixel_type := GP_PIXEL_RGB565 }⟩
    else
      (core_log s RETRO_LOG_DEBUG).map (fun s1 => ⟨false, EnvOut.nothing, s1⟩)
  else if cmd = RETRO_ENVIRONMENT_GET_SYSTEM_DIRECTORY
      ∨ cmd = RETRO_ENVIRONMENT_GET_SAVE_DIRECTORY then
    some ⟨true, EnvOut.dot_path, s⟩
  else if cmd = RETRO_ENVIRONMENT_SET_CONTROLLER_INFO then
    some ⟨true, EnvOut.nothing, handle_controller_info s data.ports⟩
  else if cmd = RETRO_ENVIRONMENT_SET_KEYBOARD_CALLBACK then
    some ⟨false, EnvOut.nothing, set_keyboard_callback s data.callback⟩
  else
    (core_log s RETRO_LOG_DEBUG).map (fun s1 => ⟨false, EnvOut.nothing, s1⟩)

/-! ## `gparch.c`: video -/

/-- The buffer a pointer refers to, when it is allocated. -/
def heap_buf (m : Heap) (p : Nat) : Option (List Nat) :=
  (m[p]?).join

/-- Library function `malloc`: a fresh buffer of `size` bytes, at a pointer not in use before.
Allocation failure is not modelled. -/
def malloc (m : Heap) (size : Nat) : Nat × Heap :=
  (m.length, m ++ [some (List.replicate size 0)])

/-- Library function `memcpy (dst, src, n)` between two buffers; `none` when one of them is not
allocated or is shorter than `n` bytes. -/
def memcpy (m : Heap) (dst src n : Nat) : Option Heap :=
  match heap_buf m dst, heap_buf m src with
  | some d, some b =>
    if n ≤ d.length ∧ n ≤ b.length then some (m.set dst (some (b.take n ++ d.drop n)))
    else none
  | _, _ => none

/-- Library function `free`; `free(NULL)` does nothing. -/
def free (m : Heap) (p : Option Nat) : Heap :=
  match p with
  | none => m
  | some q => m.set q none

/-- Reads byte `off` of buffer `p`. -/
def heap_load (m : Heap) (p off : Nat) : Option Nat :=
  (heap_buf m p).bind (fun b => b[off]?)

/-- Writes byte `off` of buffer `p`. -/
def heap_store (m : Heap) (p off v : Nat) : Option Heap :=
  (heap_buf m p).bind (fun b =>
    if off < b.length then some (m.set p (some (b.set off v))) else none)

/-- Swap `GP_SWAP (p[a], p[b])` of gfxprim: `tmp = p[b]; p[b] = p[a]; p[a] = tmp`. -/
def GP_SWAP (m : Heap) (p a b : Nat) : Option Heap :=
  (heap_load m p b).bind (fun tmp =>
    (heap_load m p a).bind (fun va =>
      (heap_store m p b va).bind (fun m1 => heap_store m1 p a tmp)))

/-- The inner loop of lines 226-227 of `gparch.c` for the row that starts at
byte `row` of buffer `p`: `for (i = 0; i < pitch/2; i++) GP_SWAP(row[2*i], row[2*i+1])`. -/
def core_video_refresh_swap_row (p row pitch : Nat) (m : Heap) : Option Heap :=
  (List.range (pitch / 2)).foldlM
    (fun m1 i => GP_SWAP m1 p (row + 2 * i) (row + 2 * i + 1)) m

/-- The loop of lines 223-228 of `gparch.c`: every row `h < height` of buffer
`p`, the row starting at `h * pitch`. -/
def core_video_refresh_swap (p pitch height : Nat) (m : Heap) : Option Heap :=
  (List.range height).foldlM
    (fun m1 h => core_video_refresh_swap_row p (h * pitch) pitch m1) m

/-- Lines 216-233 of `core_video_refresh`: for `GP_PIXEL_RGB565` the frame is
copied into a fresh buffer and the bytes of the copy are swapped. Returns the
state and `data_cpy`. -/
def core_video_refresh_copy (s : Host) (data height pitch : Nat) : Option (Host × Option Nat) :=
  if s.pixel_type = GP_PIXEL_RGB565 then
    let a := malloc s.heap (pitch * height)
    let data_cpy := a.1
    (memcpy a.2 data_cpy data (pitch * height)).bind (fun m1 =>
      (core_video_refresh_swap data_cpy pitch height m1).map (fun m2 =>
        ({ s with heap := m2 }, some data_cpy)))
  else some (s, none)

/-- Call of `gp_pixmap_init_ex` for the pixel pointer `pixels`. -/
def gp_pixmap_init_ex (s : Host) (w h : Nat) (type : gp_pixel_type) (bpr : Nat)
    (pixels : Nat) : gp_pixmap :=
  ⟨w, h, type, bpr, (heap_buf s.heap pixels).getD []⟩

/-- Conversion of an `int` to `unsigned` (32 bits). -/
def to_uint32 (i : Int) : Nat :=
  (i % 2 ^ 32).toNat

/-- Line 235 of `core_video_refresh`, for `width` and `height` other than 0:
`int rat = GP_MIN (gp_backend_w (backend) / width, gp_backend_h (backend) / height)`,
an `unsigned` minimum converted to `int`. -/
def core_video_refresh_rat (backend_w backend_h width height : Nat) : Int :=
  to_int32 (min (backend_w / width) (backend_h / height))

/-- Lines 235-252 of `core_video_refresh`. `backend_w` and `backend_h` are
what `gp_backend_w (backend)` and `gp_backend_h (backend)` return; they,
`width` and `height` are `unsigned`. `none` is the division by zero. -/
def core_video_refresh_draw (s : Host) (backend_w backend_h : Nat) (pix : gp_pixmap)
    (width height : Nat) : Option Host :=
  if width = 0 ∨ height = 0 then none
  else
    let rat : Int := core_video_refresh_rat backend_w backend_h width height
    if rat > 1 then
      let x_off := to_int32 ((backend_w + 2 ^ 32 - (width * to_uint32 rat) % 2 ^ 32) % 2 ^ 32 / 2)
      let y_off := to_int32 ((backend_h + 2 ^ 32 - (height * to_uint32 rat) % 2 ^ 32) % 2 ^ 32 / 2)
      let s1 := s.call (ExtCall.gp_sub_pixmap x_off y_off
        ((width * to_uint32 rat) % 2 ^ 32) ((height * to_uint32 rat) % 2 ^ 32))
      let s2 := s1.call (ExtCall.gp_pixmap_convert_alloc pix)
      let s3 := s2.call ExtCall.gp_filter_resize
      some (s3.call ExtCall.gp_pixmap_free)
    else
      some (s.call (ExtCall.gp_blit_xyxy pix 0 0
        (to_int32 (width + 2 ^ 32 - 1)) (to_int32 (height + 2 ^ 32 - 1)) 0 0))

/-- Function `core_video_refresh` of `gparch.c`; `data = none` is the null pointer. -/
def core_video_refresh (s : Host) (backend_w backend_h : Nat) (data : Option Nat)
    (width height pitch : Nat) : Option Host :=
  match data with
  | none => some s
  | some d =>
    let s0 := s.call (ExtCall.gp_fill 0)
    (core_video_refresh_copy s0 d height pitch).bind (fun c =>
      let pix := gp_pixmap_init_ex c.1 width height c.1.pixel_type pitch (c.2.getD d)
      (core_video_refresh_draw c.1 backend_w backend_h pix width height).map (fun s2 =>
        let s3 := s2.call ExtCall.gp_backend_flip
        { s3 with heap := free s3.heap c.2 }))

/-! ## `gparch.c`: the run loop -/

/-- One call that the core makes into `gparch.c` during `retro_run`, through a
callback registered in `core_load` or through the log callback handed out by
`core_environment`, with what the backend and ALSA answer during that call. -/
inductive CoreCall where
  | environment (cmd : Nat) (data : EnvData)
  | video_refresh (backend_w backend_h : Nat) (data : Option Nat) (width height pitch : Nat)
  | input_poll (queue : List gp_event)
  | input_state (port device index id : Nat)
  | audio_sample (left right : Int) (writei_ret : Int)
  | audio_sample_batch (data : List Int) (frames : Nat) (writei_ret : Int)
  | log (level : Nat)
  deriving DecidableEq, Repr

/-- The effect of one call of the core on the state; `none` when the call ends
the process. -/
def CoreCall.run (s : Host) : CoreCall → Option Host
  | CoreCall.environment cmd data => (core_environment s cmd data).map (fun r => r.host)
  | CoreCall.video_refresh bw bh data width height pitch =>
    core_video_refresh s bw bh data width height pitch
  | CoreCall.input_poll queue => some (core_input_poll s queue)
  | CoreCall.input_state port device index id =>
    (core_input_state s port device index id).map (fun _ => s)
  | CoreCall.audio_sample left right w => some (core_audio_sample s left right w)
  | CoreCall.audio_sample_batch data frames w => some (core_audio_sample_batch s data frames w).2
  | CoreCall.log level => core_log s level

/-- One `core_retro.retro_run ()`: the core makes the given calls in order. -/
def retro_run (s : Host) (calls : List CoreCall) : Option Host :=
  calls.foldlM CoreCall.run s

/-- The loop `while (!should_exit) core_retro.retro_run ();` of `main`, run
against the successive steps of the core. Returns how many times `retro_run`
was called and the state the loop is left with (`none` when the process ended
inside a step). -/
def main_loop : Host → List (List CoreCall) → Nat × Option Host
  | s, [] => (0, some s)
  | s, step :: rest =>
    if s.should_exit ≠ 0 then (0, some s)
    else
      match retro_run s step with
      | none => (1, none)
      | some s1 => ((main_loop s1 rest).1 + 1, (main_loop s1 rest).2)

/-! ## Definitions used to state the properties -/

/-- The calls of the keyboard callback among the calls of a log. -/
def keyboard_calls (log : List ExtCall) : List ExtCall :=
  log.filter (fun c =>
    match c with
    | ExtCall.keyboard_callback _ _ _ _ => true
    | _ => false)

/-- What one drained event hands to a registered keyboard callback: a key
event that is not a repeat and whose key `map_key` knows is forwarded with the
translated key and the down flag of the event; any other event is not
forwarded. -/
def forwarded_key_event (ev : gp_event) : Option ExtCall :=
  if ev.type = GP_EV_KEY ∧ ev.code ≠ GP_EV_KEY_REPEAT ∧ map_key ev.val ≠ RETROK_UNKNOWN then
    some (ExtCall.keyboard_callback (decide (ev.code ≠ GP_EV_KEY_UP)) (map_key ev.val) 0 0)
  else none

/-- The host keys that have a case in `map_joypad_key`. -/
def map_joypad_key_cases : List Nat :=
  [GP_KEY_A, GP_KEY_B, GP_KEY_L, GP_KEY_R, GP_KEY_X, GP_KEY_Y, GP_KEY_UP, GP_KEY_DOWN,
   GP_KEY_LEFT, GP_KEY_RIGHT, GP_KEY_ENTER, GP_KEY_BACKSPACE]

/-- A result of `map_joypad_key` that is the sentinel -1 or an index of the
`joypad_keys` table. -/
def joypad_key_ok (v : Int) : Prop :=
  v = -1 ∨ (0 ≤ v ∧ v ≤ RETRO_DEVICE_ID_JOYPAD_R3 ∧ v.toNat < Host.start.joypad_keys.length)

instance (v : Int) : Decidable (joypad_key_ok v) := by
  unfold joypad_key_ok
  infer_instance

/-- A frame of `w` by `h` pixels in `GP_PIXEL_xRGB8888`, without pixel data. -/
def blank_frame (w h : Nat) : gp_pixmap :=
  ⟨w, h, GP_PIXEL_xRGB8888, 4 * w, []⟩

/-- What `GP_SWAP (buf[a], buf[a+1])` leaves in a buffer with the bytes `buf`. -/
def swap_at (buf : List Nat) (a : Nat) : List Nat :=
  (buf.set (a + 1) (buf.getD a 0)).set a (buf.getD (a + 1) 0)

/-- Byte offsets at least two apart: the byte pairs that start there do not
overlap. -/
def far (a b : Nat) : Prop := a + 2 ≤ b ∨ b + 2 ≤ a

instance (a b : Nat) : Decidable (far a b) := by
  unfold far
  infer_instance

/-- The byte offsets at which the loops of lines 223-228 swap a pair, in the
order of the loops. -/
def swap_offsets (pitch height : Nat) : List Nat :=
  (List.range height).flatMap (fun h => (List.range (pitch / 2)).map (fun i => h * pitch + 2 * i))

/-- A state in which `GP_PIXEL_RGB565` has been negotiated and the core owns one
buffer, a frame of two rows with a pitch of five bytes. -/
def rgb565_frame : Host :=
  { Host.start with pixel_type := GP_PIXEL_RGB565, heap := [some [1, 2, 3, 4, 5, 6, 7, 8, 9, 10]] }

/-- The `GP_EV_SYS_QUIT` event. -/
def quit_event : gp_event :=
  ⟨GP_EV_SYS, GP_EV_SYS_QUIT, 0, 0, 0⟩

/-! ## Properties -/

theorem lookup_mem_snd (l : List (Nat × Nat)) (k v : Nat) (h : l.lookup k = some v) :
    v ∈ l.map Prod.snd := by
  induction l with
  | nil => simp at h
  | cons x xs ih =>
    obtain ⟨a, b⟩ := x
    by_cases hk : k = a
    · subst hk
      simp [List.lookup] at h
      simp [h]
    · have hb : (k == a) = false := by simpa using hk
      simp only [List.lookup, hb] at h
      simp [ih h]

theorem lookup_none_of_not_mem (l : List (Nat × Nat)) (k : Nat)
    (h : k ∉ l.map Prod.fst) : l.lookup k = none := by
  induction l with
  | nil => rfl
  | cons x xs ih =>
    obtain ⟨a, b⟩ := x
    simp only [List.map_cons, List.mem_cons, not_or] at h
    have hb : (k == a) = false := by simpa using h.1
    simp only [List.lookup, hb]
    exact ih h.2

theorem map_key_targets_concrete :
    ∀ v ∈ map_key_cases.map Prod.snd, RETROK_UNKNOWN < v ∧ v < RETROK_LAST := by
  decide

theorem ite_pred (P : Int → Prop) (c : Prop) [Decidable c] (a b : Int) (ha : P a) (hb : P b) :
    P (if c then a else b) := by
  split <;> assumption

theorem map_joypad_key_ok (k : Nat) : joypad_key_ok (map_joypad_key k) := by
  unfold map_joypad_key
  repeat (first | apply ite_pred joypad_key_ok | (unfold joypad_key_ok; decide))

/-- C1: on `RETRO_ENVIRONMENT_SET_PIXEL_FORMAT`, `core_environment` returns;
for `RETRO_PIXEL_FORMAT_XRGB8888` it returns true and sets `pixel_type` to
`GP_PIXEL_xRGB8888`, for `RETRO_PIXEL_FORMAT_RGB565` it returns true and sets
`pixel_type` to `GP_PIXEL_RGB565`, and for `RETRO_PIXEL_FORMAT_0RGB1555` and
every other value it returns false and leaves the whole state, the negotiated
`pixel_type` included, as it was. -/
theorem core_environment_set_pixel_format (s : Host) (data : EnvData) :
    ∃ r, core_environment s RETRO_ENVIRONMENT_SET_PIXEL_FORMAT data = some r ∧
      (data.format = RETRO_PIXEL_FORMAT_XRGB8888 →
        r.ret = true ∧ r.host = { s with pixel_type := GP_PIXEL_xRGB8888 }) ∧
      (data.format = RETRO_PIXEL_FORMAT_RGB565 →
        r.ret = true ∧ r.host = { s with pixel_type := GP_PIXEL_RGB565 }) ∧
      (data.format = RETRO_PIXEL_FORMAT_0RGB1555 →
        r.ret = false ∧ r.host = s ∧ r.host.pixel_type = s.pixel_type) ∧
      (data.format ≠ RETRO_PIXEL_FORMAT_XRGB8888 → data.format ≠ RETRO_PIXEL_FORMAT_RGB565 →
        r.ret = false ∧ r.host = s ∧ r.host.pixel_type = s.pixel_type) := by
  by_cases h0 : data.format = RETRO_PIXEL_FORMAT_0RGB1555
  · refine ⟨⟨false, EnvOut.nothing, s⟩, ?_, ?_, ?_, ?_, ?_⟩
    · simp [core_environment, h0, RETRO_ENVIRONMENT_SET_PIXEL_FORMAT,
        RETRO_ENVIRONMENT_GET_LOG_INTERFACE, RETRO_ENVIRONMENT_GET_CAN_DUPE]
    · intro h; rw [h0] at h; exact absurd h (by decide)
    · intro h; rw [h0] at h; exact absurd h (by decide)
    · intro _; exact ⟨rfl, rfl, rfl⟩
    · intro _ _; exact ⟨rfl, rfl, rfl⟩
  by_cases h1 : data.format = RETRO_PIXEL_FORMAT_XRGB8888
  · refine ⟨⟨true, EnvOut.nothing, { s with pixel_type := GP_PIXEL_xRGB8888 }⟩, ?_, ?_, ?_, ?_, ?_⟩
    · simp [core_environment, h1, RETRO_ENVIRONMENT_SET_PIXEL_FORMAT,
        RETRO_ENVIRONMENT_GET_LOG_INTERFACE, RETRO_ENVIRONMENT_GET_CAN_DUPE,
        RETRO_PIXEL_FORMAT_XRGB8888, RETRO_PIXEL_FORMAT_0RGB1555]
    · intro _; exact ⟨rfl, rfl⟩
    · intro h; rw [h1] at h; exact absurd h (by decide)
    · intro h; exact absurd h h0
    · intro h; exact absurd h1 h
  by_cases h2 : data.format = RETRO_PIXEL_FORMAT_RGB565
  · refine ⟨⟨true, EnvOut.nothing, { s with pixel_type := GP_PIXEL_RGB565 }⟩, ?_, ?_, ?_, ?_, ?_⟩
    · simp [core_environment, h2, RETRO_ENVIRONMENT_SET_PIXEL_FORMAT,
        RETRO_ENVIRONMENT_GET_LOG_INTERFACE, RETRO_ENVIRONMENT_GET_CAN_DUPE,
        RETRO_PIXEL_FORMAT_XRGB8888, RETRO_PIXEL_FORMAT_0RGB1555, RETRO_PIXEL_FORMAT_RGB565]
    · intro h; exact absurd h h1
    · intro _; exact ⟨rfl, rfl⟩
    · intro h; exact absurd h h0
    · intro _ h; exact absurd h2 h
  · refine ⟨⟨false, EnvOut.nothing, s⟩, ?_, ?_, ?_, ?_, ?_⟩
    · simp [core_environment, h0, h1, h2, core_log, RETRO_LOG_DEBUG,
        RETRO_ENVIRONMENT_SET_PIXEL_FORMAT,
        RETRO_ENVIRONMENT_GET_LOG_INTERFACE, RETRO_ENVIRONMENT_GET_CAN_DUPE]
    · intro h; exact absurd h h1
    · intro h; exact absurd h h2
    · intro _; exact ⟨rfl, rfl, rfl⟩
    · intro _ _; exact ⟨rfl, rfl, rfl⟩

/-- C10: for every host key code `k`, `map_joypad_key k` is -1 or a button
identifier between 0 and `RETRO_DEVICE_ID_JOYPAD_R3`, which is an index of the
`joypad_keys` table, and it is -1 for every key that has no case in its
switch; `map_key k` is `RETROK_UNKNOWN` or one of the `retro_key` values of its
switch, all of which lie strictly between `RETROK_UNKNOWN` and `RETROK_LAST`,
and it is `RETROK_UNKNOWN` for every key that has no case in its switch. -/
theorem map_key_map_joypad_key_total (k : Nat) :
    (map_joypad_key k = -1 ∨
      (0 ≤ map_joypad_key k ∧ map_joypad_key k ≤ RETRO_DEVICE_ID_JOYPAD_R3 ∧
        (map_joypad_key k).toNat < Host.start.joypad_keys.length)) ∧
    (k ∉ map_joypad_key_cases → map_joypad_key k = -1) ∧
    (map_key k = RETROK_UNKNOWN ∨
      (map_key k ∈ map_key_cases.map Prod.snd ∧
        RETROK_UNKNOWN < map_key k ∧ map_key k < RETROK_LAST)) ∧
    (k ∉ map_key_cases.map Prod.fst → map_key k = RETROK_UNKNOWN) := by
  refine ⟨?_, ?_, ?_, ?_⟩
  · exact map_joypad_key_ok k
  · intro h
    simp only [map_joypad_key_cases, List.mem_cons, List.mem_singleton, List.not_mem_nil,
      not_or, or_false] at h
    obtain ⟨h1, h2, h3, h4, h5, h6, h7, h8, h9, h10, h11, h12⟩ := h
    simp [map_joypad_key, h1, h2, h3, h4, h5, h6, h7, h8, h9, h10, h11, h12]
  · unfold map_key
    cases hl : map_key_cases.lookup k with
    | none => left; rfl
    | some v =>
      right
      have hv := lookup_mem_snd _ _ _ hl
      exact ⟨hv, map_key_targets_concrete v hv⟩
  · intro h
    unfold map_key
    rw [lookup_none_of_not_mem _ _ h]

/-- C3: a port list whose only port declares the types joypad and keyboard,
in that order, followed by the terminating entry. `handle_controller_info`
makes no call of `retro_set_controller_port_device`, because every round of its
`for` loop looks at the first declared type; with the same two types in the
other order it makes the call for port 0. The same happens when that port
comes second, after a port that declares a joypad only. -/
theorem handle_controller_info_misses_keyboard :
    (handle_controller_info Host.start
        [⟨some [⟨RETRO_DEVICE_JOYPAD⟩, ⟨RETRO_DEVICE_KEYBOARD⟩], 2⟩, ⟨none, 0⟩]).log = [] ∧
    (handle_controller_info Host.start
        [⟨some [⟨RETRO_DEVICE_KEYBOARD⟩, ⟨RETRO_DEVICE_JOYPAD⟩], 2⟩, ⟨none, 0⟩]).log
      = [ExtCall.retro_set_controller_port_device 0 RETRO_DEVICE_KEYBOARD] ∧
    (handle_controller_info Host.start
        [⟨some [⟨RETRO_DEVICE_JOYPAD⟩], 1⟩,
         ⟨some [⟨RETRO_DEVICE_JOYPAD⟩, ⟨RETRO_DEVICE_KEYBOARD⟩], 2⟩, ⟨none, 0⟩]).log = [] := by
  decide

theorem core_input_state_in_table (s : Host) (port device index id : Nat) :
    (port ≠ 0 ∨ index ≠ 0 → core_input_state s port device index id = some 0) ∧
    (device ≠ RETRO_DEVICE_JOYPAD → device ≠ RETRO_DEVICE_MOUSE →
      core_input_state s port device index id = some 0) ∧
    (core_input_state s 0 RETRO_DEVICE_JOYPAD 0 id = (s.joypad_keys[id]?).map to_int16) ∧
    (core_input_state s 0 RETRO_DEVICE_MOUSE 0 id = s.mouse_state[id]?) := by
  refine ⟨?_, ?_, ?_, ?_⟩
  · intro h
    simp [core_input_state, h]
  · intro h1 h2
    unfold core_input_state
    split_ifs <;> rfl
  · simp [core_input_state]
  · simp [core_input_state, RETRO_DEVICE_MOUSE, RETRO_DEVICE_JOYPAD]

/-- C6: in the start state, where `joypad_keys` has `RETRO_DEVICE_ID_JOYPAD_R3+1`
entries and `mouse_state` has `RETRO_DEVICE_ID_POINTER_COUNT` entries,
`core_input_state (0, RETRO_DEVICE_MOUSE, 0, RETRO_DEVICE_ID_MOUSE_RIGHT)` reads
`mouse_state[3]` and `core_input_state (0, RETRO_DEVICE_JOYPAD, 0, 16)` reads
`joypad_keys[16]`: both reads are past the end of the table. -/
theorem core_input_state_reads_past_table :
    Host.start.mouse_state.length = RETRO_DEVICE_ID_POINTER_COUNT ∧
    core_input_state Host.start 0 RETRO_DEVICE_MOUSE 0 RETRO_DEVICE_ID_MOUSE_RIGHT = none ∧
    Host.start.joypad_keys.length = RETRO_DEVICE_ID_JOYPAD_R3 + 1 ∧
    core_input_state Host.start 0 RETRO_DEVICE_JOYPAD 0 (RETRO_DEVICE_ID_JOYPAD_R3 + 1) = none := by
  decide

theorem audio_write_without_handle (s : Host) (buf : List Int) (frames : Nat) (r : Int)
    (h : s.alsa_pcm = none) : audio_write s buf frames r = (0, s) := by
  unfold audio_write
  rw [h]

theorem audio_init_open_failure (s : Host) (frequency open_err set_params_err : Int)
    (handle : Nat) (h : open_err < 0) :
    (audio_init s frequency open_err handle set_params_err).1 = 1 ∧
    (audio_init s frequency open_err handle set_params_err).2.alsa_pcm = s.alsa_pcm := by
  unfold audio_init
  dsimp only
  rw [if_pos h]
  exact ⟨rfl, rfl⟩

/-- C9: call of `audio_init` in which `snd_pcm_open` succeeds (returns 0, handle 1) and
`snd_pcm_set_params` fails (returns -22) returns the failure value 1 and
leaves `alsa_pcm` set; `audio_write` of one frame after it calls
`snd_pcm_writei`, and returns the one frame that `snd_pcm_writei` reports
written. `core_audio_sample` and `core_audio_sample_batch` make the same device
write. -/
theorem audio_write_after_failed_audio_init :
    (audio_init Host.start 44100 0 1 (-22)).1 = 1 ∧
    (audio_init Host.start 44100 0 1 (-22)).2.alsa_pcm = some 1 ∧
    (audio_write (audio_init Host.start 44100 0 1 (-22)).2 [0, 0] 1 1).1 = 1 ∧
    (audio_write (audio_init Host.start 44100 0 1 (-22)).2 [0, 0] 1 1).2.log
      = [ExtCall.snd_pcm_open, ExtCall.snd_pcm_set_params 44100,
         ExtCall.snd_pcm_writei [0, 0] 1] ∧
    (core_audio_sample (audio_init Host.start 44100 0 1 (-22)).2 0 0 1).log
      = [ExtCall.snd_pcm_open, ExtCall.snd_pcm_set_params 44100,
         ExtCall.snd_pcm_writei [0, 0] 1] ∧
    (core_audio_sample_batch (audio_init Host.start 44100 0 1 (-22)).2 [0, 0] 1 1).1 = 1 := by
  decide

/-- C5, as stated, fails: with a keyboard callback registered, the press of
`GP_BTN_LEFT`, a key without a joypad mapping, is drained by `core_input_poll`
and the callback is not called, where the claim has it called once with
`map_key (GP_BTN_LEFT)` and the down flag set. -/
theorem core_input_poll_drops_unknown_key :
    map_joypad_key GP_BTN_LEFT = -1 ∧
    (core_input_poll { Host.start with keyboard_callback := some 1 }
      [⟨GP_EV_KEY, GP_EV_KEY_DOWN, GP_BTN_LEFT, 0, 0⟩]).log = [] ∧
    keyboard_calls (core_input_poll { Host.start with keyboard_callback := some 1 }
      [⟨GP_EV_KEY, GP_EV_KEY_DOWN, GP_BTN_LEFT, 0, 0⟩]).log
      ≠ [ExtCall.keyboard_callback true (map_key GP_BTN_LEFT) 0 0] := by
  decide

theorem keyboard_calls_append (a b : List ExtCall) :
    keyboard_calls (a ++ b) = keyboard_calls a ++ keyboard_calls b := by
  simp [keyboard_calls]

theorem handle_keyboard_callback_fields (s : Host) (ev : gp_event) :
    (handle_keyboard_callback s ev).keyboard_callback = s.keyboard_callback ∧
    (handle_keyboard_callback s ev).joypad_keys = s.joypad_keys ∧
    (handle_keyboard_callback s ev).should_exit = s.should_exit ∧
    (handle_keyboard_callback s ev).heap = s.heap ∧
    (handle_keyboard_callback s ev).alsa_pcm = s.alsa_pcm := by
  unfold handle_keyboard_callback
  split
  · simp
  · split
    · simp
    · dsimp only
      split <;> simp [Host.call]

theorem core_input_poll_body_keyboard_callback (s : Host) (ev : gp_event) :
    (core_input_poll_body s ev).keyboard_callback = s.keyboard_callback := by
  have h := (handle_keyboard_callback_fields s ev).1
  simp only [core_input_poll_body]
  split_ifs <;> simp [Host.call, h]

theorem core_input_poll_body_log_key (s : Host) (ev : gp_event) (hk : ev.type = GP_EV_KEY) :
    (core_input_poll_body s ev).log = (handle_keyboard_callback s ev).log := by
  have h1 : ¬ GP_EV_KEY = GP_EV_REL := by decide
  simp only [core_input_poll_body, hk, h1, if_true, if_false]
  split_ifs <;> rfl

theorem core_input_poll_body_log_other (s : Host) (ev : gp_event) (hk : ev.type ≠ GP_EV_KEY) :
    keyboard_calls (core_input_poll_body s ev).log = keyboard_calls s.log := by
  simp only [core_input_poll_body, hk, if_false]
  split_ifs <;> simp [Host.call, keyboard_calls]

theorem core_input_poll_body_keyboard_calls (s : Host) (ev : gp_event) :
    keyboard_calls (core_input_poll_body s ev).log
      = keyboard_calls s.log ++
        (if s.keyboard_callback.isSome then (forwarded_key_event ev).toList else []) := by
  by_cases hk : ev.type = GP_EV_KEY
  · rw [core_input_poll_body_log_key s ev hk]
    unfold handle_keyboard_callback forwarded_key_event
    split
    · rename_i hcb
      simp [hcb]
    · rename_i cb hcb
      by_cases hr : ev.code = GP_EV_KEY_REPEAT
      · simp [hcb, hr]
      · by_cases hu : map_key ev.val = RETROK_UNKNOWN
        · simp [hcb, hr, hu]
        · have hb : (ev.code != 0) = decide (ev.code ≠ GP_EV_KEY_UP) := by
            by_cases hc : ev.code = 0 <;> simp [hc, GP_EV_KEY_UP]
          have hf : ev.type = GP_EV_KEY ∧ ev.code ≠ GP_EV_KEY_REPEAT ∧
              map_key ev.val ≠ RETROK_UNKNOWN := ⟨hk, hr, hu⟩
          simp only [if_neg hr, if_neg hu, if_pos hf, hb, hcb, Host.call, keyboard_calls_append]
          simp [keyboard_calls]
  · rw [core_input_poll_body_log_other s ev hk]
    simp [forwarded_key_event, hk]

/-- C5, amended: for every state and every queue of events drained by
`core_input_poll`, the calls of the keyboard callback that the poll adds are,
when a callback is registered, exactly one call for each key event of the
queue that is not a repeat and whose key `map_key` translates to something
other than `RETROK_UNKNOWN`, in queue order, with the key translated by
`map_key` and the down flag true for a press and false for a release; when no
callback is registered the poll adds none. -/
theorem core_input_poll_keyboard_calls (s : Host) (queue : List gp_event) :
    keyboard_calls (core_input_poll s queue).log
      = keyboard_calls s.log ++
        (if s.keyboard_callback.isSome then queue.filterMap forwarded_key_event else []) := by
  unfold core_input_poll
  induction queue generalizing s with
  | nil => simp
  | cons ev rest ih =>
    rw [List.foldl_cons, ih, core_input_poll_body_keyboard_calls,
      core_input_poll_body_keyboard_callback]
    cases hcb : s.keyboard_callback.isSome
    · simp
    · cases hf : forwarded_key_event ev <;> simp [List.filterMap_cons, hf]

theorem core_input_poll_body_joypad_keys (s : Host) (ev : gp_event)
    (hk : ev.type = GP_EV_KEY) :
    (core_input_poll_body s ev).joypad_keys =
      if map_joypad_key ev.val = -1 then s.joypad_keys
      else s.joypad_keys.set (map_joypad_key ev.val).toNat (if ev.code ≠ 0 then 1 else 0) := by
  have h1 : ¬ GP_EV_KEY = GP_EV_REL := by decide
  have h2 := (handle_keyboard_callback_fields s ev).2.1
  simp only [core_input_poll_body, hk, h1, if_true, if_false]
  split_ifs <;> simp [h2]

/-- C4: for a key event `ev` and a `joypad_keys` table of
`RETRO_DEVICE_ID_JOYPAD_R3+1` entries, when `map_joypad_key (ev.val)` is the
button `b`, after `core_input_poll` has drained the event
`core_input_state (0, RETRO_DEVICE_JOYPAD, 0, b)` returns 1 for a press
(`GP_EV_KEY_DOWN`) and 0 for a release (`GP_EV_KEY_UP`), and every other entry
of the table, and what `core_input_state` returns for it, is as before; when
`map_joypad_key (ev.val)` is -1 the table is as before. -/
theorem core_input_poll_joypad (s : Host) (ev : gp_event)
    (hk : ev.type = GP_EV_KEY)
    (hlen : s.joypad_keys.length = RETRO_DEVICE_ID_JOYPAD_R3 + 1) :
    (∀ b : Nat, map_joypad_key ev.val = (b : Int) →
      (ev.code = GP_EV_KEY_DOWN →
        core_input_state (core_input_poll s [ev]) 0 RETRO_DEVICE_JOYPAD 0 b = some 1) ∧
      (ev.code = GP_EV_KEY_UP →
        core_input_state (core_input_poll s [ev]) 0 RETRO_DEVICE_JOYPAD 0 b = some 0) ∧
      (∀ id, id ≠ b →
        (core_input_poll s [ev]).joypad_keys[id]? = s.joypad_keys[id]? ∧
        core_input_state (core_input_poll s [ev]) 0 RETRO_DEVICE_JOYPAD 0 id
          = core_input_state s 0 RETRO_DEVICE_JOYPAD 0 id)) ∧
    (map_joypad_key ev.val = -1 → (core_input_poll s [ev]).joypad_keys = s.joypad_keys) := by
  have hp : core_input_poll s [ev] = core_input_poll_body s ev := rfl
  rw [hp]
  refine ⟨?_, ?_⟩
  · intro b hb
    have hne : ¬ map_joypad_key ev.val = -1 := by rw [hb]; omega
    have hok := map_joypad_key_ok ev.val
    have hlt : b < s.joypad_keys.length := by
      unfold joypad_key_ok at hok
      rw [hb] at hok
      rcases hok with h | ⟨_, h, _⟩
      · omega
      · rw [hlen]
        simp only [RETRO_DEVICE_ID_JOYPAD_R3] at h ⊢
        omega
    have hj := core_input_poll_body_joypad_keys s ev hk
    rw [if_neg hne, hb, Int.toNat_ofNat] at hj
    refine ⟨?_, ?_, ?_⟩
    · intro hd
      simp [core_input_state, hj, hd, GP_EV_KEY_DOWN, hlt, to_int16]
    · intro hu
      simp [core_input_state, hj, hu, GP_EV_KEY_UP, hlt, to_int16]
    · intro id hid
      have hset : (core_input_poll_body s ev).joypad_keys[id]? = s.joypad_keys[id]? := by
        rw [hj, List.getElem?_set_ne (Ne.symm hid)]
      exact ⟨hset, by simp [core_input_state, hset]⟩
  · intro hm
    rw [core_input_poll_body_joypad_keys s ev hk, if_pos hm]

theorem core_input_poll_joypad_witness :
    core_input_state
        (core_input_poll Host.start [⟨GP_EV_KEY, GP_EV_KEY_DOWN, GP_KEY_ENTER, 0, 0⟩])
        0 RETRO_DEVICE_JOYPAD 0 RETRO_DEVICE_ID_JOYPAD_START = some 1 ∧
    core_input_state
        (core_input_poll Host.start [⟨GP_EV_KEY, GP_EV_KEY_DOWN, GP_KEY_ENTER, 0, 0⟩])
        0 RETRO_DEVICE_JOYPAD 0 RETRO_DEVICE_ID_JOYPAD_A
      = core_input_state Host.start 0 RETRO_DEVICE_JOYPAD 0 RETRO_DEVICE_ID_JOYPAD_A :=
  have h := (core_input_poll_joypad Host.start ⟨GP_EV_KEY, GP_EV_KEY_DOWN, GP_KEY_ENTER, 0, 0⟩
    rfl (by decide)).1 RETRO_DEVICE_ID_JOYPAD_START (by decide)
  ⟨h.1 rfl, (h.2.2 RETRO_DEVICE_ID_JOYPAD_A (by decide)).2⟩

theorem to_int32_of_lt (n : Nat) (h : n < 2 ^ 31) : to_int32 n = (n : Int) := by
  have h2 : n % 2 ^ 32 = n := Nat.mod_eq_of_lt (by omega)
  unfold to_int32
  rw [h2, if_pos h]

theorem to_uint32_of_lt (n : Nat) (h : n < 2 ^ 32) : to_uint32 (n : Int) = n := by
  unfold to_uint32
  have h2 : ((n : Int) % 2 ^ 32) = (n : Int) := by
    apply Int.emod_eq_of_lt
    · omega
    · exact_mod_cast h
  rw [h2, Int.toNat_ofNat]

/-- C2: for a surface of `sw` by `sh` pixels and a frame of `fw` by `fh`
pixels, all four representable as `int` and `fw`, `fh` other than 0, the
factor `rat` of `core_video_refresh` is `f = min (sw div fw) (sh div fh)`;
`f` is the largest whole number `k` with `k*fw <= sw` and `k*fh <= sh`; when
`f >= 2` the calls made are those of the resample path, with the destination
`gp_sub_pixmap` of size `(fw*f, fh*f)` at `((sw - fw*f) div 2, (sh - fh*f) div 2)`;
when `f <= 1` the only call made is the direct `gp_blit_xyxy` of the frame. -/
theorem core_video_refresh_scale (s : Host) (pix : gp_pixmap) (sw sh fw fh : Nat)
    (hfw : 0 < fw) (hfh : 0 < fh) (hfw31 : fw < 2 ^ 31) (hfh31 : fh < 2 ^ 31)
    (hsw : sw < 2 ^ 31) (hsh : sh < 2 ^ 31) :
    core_video_refresh_rat sw sh fw fh = ((min (sw / fw) (sh / fh) : Nat) : Int) ∧
    (min (sw / fw) (sh / fh) * fw ≤ sw ∧ min (sw / fw) (sh / fh) * fh ≤ sh ∧
      ∀ k, k * fw ≤ sw → k * fh ≤ sh → k ≤ min (sw / fw) (sh / fh)) ∧
    (2 ≤ min (sw / fw) (sh / fh) →
      core_video_refresh_draw s sw sh pix fw fh =
        some ((((s.call (ExtCall.gp_sub_pixmap
            (((sw - fw * min (sw / fw) (sh / fh)) / 2 : Nat) : Int)
            (((sh - fh * min (sw / fw) (sh / fh)) / 2 : Nat) : Int)
            (fw * min (sw / fw) (sh / fh)) (fh * min (sw / fw) (sh / fh)))).call
          (ExtCall.gp_pixmap_convert_alloc pix)).call ExtCall.gp_filter_resize).call
          ExtCall.gp_pixmap_free)) ∧
    (min (sw / fw) (sh / fh) ≤ 1 →
      core_video_refresh_draw s sw sh pix fw fh =
        some (s.call (ExtCall.gp_blit_xyxy pix 0 0 ((fw - 1 : Nat) : Int) ((fh - 1 : Nat) : Int)
          0 0))) := by
  generalize hf : min (sw / fw) (sh / fh) = f
  have hf1 : f ≤ sw / fw := by rw [← hf]; exact Nat.min_le_left _ _
  have hf2 : f ≤ sh / fh := by rw [← hf]; exact Nat.min_le_right _ _
  have hw : f * fw ≤ sw := (Nat.le_div_iff_mul_le hfw).mp hf1
  have hh : f * fh ≤ sh := (Nat.le_div_iff_mul_le hfh).mp hf2
  have hfsw : f ≤ sw := le_trans hf1 (Nat.div_le_self _ _)
  have hrat : core_video_refresh_rat sw sh fw fh = (f : Int) := by
    unfold core_video_refresh_rat
    rw [hf]
    exact to_int32_of_lt f (by omega)
  have hne : ¬ (fw = 0 ∨ fh = 0) := by omega
  refine ⟨hrat, ⟨hw, hh, ?_⟩, ?_, ?_⟩
  · intro k hk1 hk2
    rw [← hf]
    exact Nat.le_min.mpr
      ⟨(Nat.le_div_iff_mul_le hfw).mpr hk1, (Nat.le_div_iff_mul_le hfh).mpr hk2⟩
  · intro h2
    have hgt : (f : Int) > 1 := by omega
    have hu : to_uint32 (f : Int) = f := to_uint32_of_lt f (by omega)
    have hw2 : fw * f ≤ sw := by rw [Nat.mul_comm]; exact hw
    have hh2 : fh * f ≤ sh := by rw [Nat.mul_comm]; exact hh
    have e1 : (fw * f) % 2 ^ 32 = fw * f := Nat.mod_eq_of_lt (by omega)
    have e2 : (fh * f) % 2 ^ 32 = fh * f := Nat.mod_eq_of_lt (by omega)
    have e3 : (sw + 2 ^ 32 - fw * f) % 2 ^ 32 = sw - fw * f := by omega
    have e4 : (sh + 2 ^ 32 - fh * f) % 2 ^ 32 = sh - fh * f := by omega
    have e5 : to_int32 ((sw - fw * f) / 2) = (((sw - fw * f) / 2 : Nat) : Int) :=
      to_int32_of_lt _ (by omega)
    have e6 : to_int32 ((sh - fh * f) / 2) = (((sh - fh * f) / 2 : Nat) : Int) :=
      to_int32_of_lt _ (by omega)
    simp only [core_video_refresh_draw, if_neg hne, hrat, if_pos hgt, hu, e1, e2, e3, e4, e5, e6]
  · intro h1
    have hgt : ¬ (f : Int) > 1 := by omega
    have e1 : to_int32 (fw + 2 ^ 32 - 1) = ((fw - 1 : Nat) : Int) := by
      have h2 : (fw + 2 ^ 32 - 1) % 2 ^ 32 = fw - 1 := by omega
      have h3 : fw - 1 < 2 ^ 31 := by omega
      simp only [to_int32, h2, if_pos h3]
    have e2 : to_int32 (fh + 2 ^ 32 - 1) = ((fh - 1 : Nat) : Int) := by
      have h2 : (fh + 2 ^ 32 - 1) % 2 ^ 32 = fh - 1 := by omega
      have h3 : fh - 1 < 2 ^ 31 := by omega
      simp only [to_int32, h2, if_pos h3]
    simp only [core_video_refresh_draw, if_neg hne, hrat, if_neg hgt, e1, e2]

theorem core_video_refresh_scale_witness :
    (core_video_refresh_rat 640 480 320 240 = 2 ∧
      core_video_refresh_draw Host.start 640 480 (blank_frame 320 240) 320 240 =
        some ((((Host.start.call (ExtCall.gp_sub_pixmap 0 0 640 480)).call
          (ExtCall.gp_pixmap_convert_alloc (blank_frame 320 240))).call
          ExtCall.gp_filter_resize).call ExtCall.gp_pixmap_free)) ∧
    (core_video_refresh_rat 640 480 256 224 = 2 ∧
      core_video_refresh_draw Host.start 640 480 (blank_frame 256 224) 256 224 =
        some ((((Host.start.call (ExtCall.gp_sub_pixmap 64 16 512 448)).call
          (ExtCall.gp_pixmap_convert_alloc (blank_frame 256 224))).call
          ExtCall.gp_filter_resize).call ExtCall.gp_pixmap_free)) ∧
    (core_video_refresh_rat 640 480 800 600 = 0 ∧
      core_video_refresh_draw Host.start 640 480 (blank_frame 800 600) 800 600 =
        some (Host.start.call
          (ExtCall.gp_blit_xyxy (blank_frame 800 600) 0 0 799 599 0 0))) ∧
    (core_video_refresh_rat 640 480 400 300 = 1 ∧
      core_video_refresh_draw Host.start 640 480 (blank_frame 400 300) 400 300 =
        some (Host.start.call
          (ExtCall.gp_blit_xyxy (blank_frame 400 300) 0 0 399 299 0 0))) :=
  have a := core_video_refresh_scale Host.start (blank_frame 320 240) 640 480 320 240
    (by decide) (by decide) (by decide) (by decide) (by decide) (by decide)
  have b := core_video_refresh_scale Host.start (blank_frame 256 224) 640 480 256 224
    (by decide) (by decide) (by decide) (by decide) (by decide) (by decide)
  have c := core_video_refresh_scale Host.start (blank_frame 800 600) 640 480 800 600
    (by decide) (by decide) (by decide) (by decide) (by decide) (by decide)
  have d := core_video_refresh_scale Host.start (blank_frame 400 300) 640 480 400 300
    (by decide) (by decide) (by decide) (by decide) (by decide) (by decide)
  ⟨⟨a.1, a.2.2.1 (by decide)⟩, ⟨b.1, b.2.2.1 (by decide)⟩, ⟨c.1, c.2.2.2 (by decide)⟩,
    ⟨d.1, d.2.2.2 (by decide)⟩⟩

theorem swap_at_length (buf : List Nat) (a : Nat) : (swap_at buf a).length = buf.length := by
  simp [swap_at]

theorem swap_at_getElem? (buf : List Nat) (a j : Nat) (h : a + 1 < buf.length) :
    (swap_at buf a)[j]? =
      if j = a then buf[a + 1]? else if j = a + 1 then buf[a]? else buf[j]? := by
  have ha : a < buf.length := by omega
  unfold swap_at
  rw [List.getElem?_set, List.getElem?_set]
  by_cases h1 : j = a
  · subst h1
    simp [h, List.getD_eq_getElem?_getD, ha]
  · by_cases h2 : j = a + 1
    · subst h2
      simp [h, List.getD_eq_getElem?_getD, ha]
    · have h3 : ¬ a = j := fun e => h1 e.symm
      have h4 : ¬ a + 1 = j := fun e => h2 e.symm
      simp [h1, h2, h3, h4]

theorem swap_at_swap_at (buf : List Nat) (a : Nat) (h : a + 1 < buf.length) :
    swap_at (swap_at buf a) a = buf := by
  apply List.ext_getElem?
  intro j
  have h2 : a + 1 < (swap_at buf a).length := by rw [swap_at_length]; exact h
  rw [swap_at_getElem? _ _ _ h2, swap_at_getElem? _ _ _ h, swap_at_getElem? _ _ _ h,
    swap_at_getElem? _ _ _ h]
  by_cases h1 : j = a
  · subst h1; simp
  · by_cases h3 : j = a + 1
    · subst h3; simp
    · simp [h1, h3]

theorem swap_at_comm (buf : List Nat) (a b : Nat) (hab : far a b)
    (ha : a + 1 < buf.length) (hb : b + 1 < buf.length) :
    swap_at (swap_at buf a) b = swap_at (swap_at buf b) a := by
  apply List.ext_getElem?
  intro j
  have ha2 : a + 1 < (swap_at buf b).length := by rw [swap_at_length]; exact ha
  have hb2 : b + 1 < (swap_at buf a).length := by rw [swap_at_length]; exact hb
  simp only [swap_at_getElem? _ _ _ hb2, swap_at_getElem? _ _ _ ha2,
    swap_at_getElem? _ _ _ ha, swap_at_getElem? _ _ _ hb]
  unfold far at hab
  split_ifs <;> first | rfl | omega

theorem foldl_swap_at_length (as : List Nat) (buf : List Nat) :
    (as.foldl swap_at buf).length = buf.length := by
  induction as generalizing buf with
  | nil => rfl
  | cons a as ih => rw [List.foldl_cons, ih, swap_at_length]

theorem swap_at_foldl_comm (as : List Nat) (buf : List Nat) (a : Nat)
    (hfar : ∀ b ∈ as, far a b) (ha : a + 1 < buf.length) (hb : ∀ b ∈ as, b + 1 < buf.length) :
    swap_at (as.foldl swap_at buf) a = as.foldl swap_at (swap_at buf a) := by
  induction as generalizing buf with
  | nil => rfl
  | cons b as ih =>
    rw [List.foldl_cons, List.foldl_cons]
    have hb1 : b + 1 < buf.length := hb b (List.mem_cons_self _ _)
    rw [ih (swap_at buf b) (fun x hx => hfar x (List.mem_cons_of_mem _ hx))
      (by rw [swap_at_length]; exact ha)
      (fun x hx => by rw [swap_at_length]; exact hb x (List.mem_cons_of_mem _ hx))]
    rw [swap_at_comm buf a b (hfar b (List.mem_cons_self _ _)) ha hb1]

theorem foldl_swap_at_twice (as : List Nat) (buf : List Nat)
    (hfar : as.Pairwise far) (hb : ∀ b ∈ as, b + 1 < buf.length) :
    as.foldl swap_at (as.foldl swap_at buf) = buf := by
  induction as generalizing buf with
  | nil => rfl
  | cons a as ih =>
    rw [List.pairwise_cons] at hfar
    have ha : a + 1 < buf.length := hb a (List.mem_cons_self _ _)
    have hb2 : ∀ b ∈ as, b + 1 < buf.length := fun x hx => hb x (List.mem_cons_of_mem _ hx)
    rw [List.foldl_cons, List.foldl_cons]
    rw [swap_at_foldl_comm as (swap_at buf a) a hfar.1
      (by rw [swap_at_length]; exact ha)
      (fun x hx => by rw [swap_at_length]; exact hb2 x hx)]
    rw [swap_at_swap_at buf a ha]
    exact ih buf hfar.2 hb2

theorem swap_offsets_bound (pitch height : Nat) :
    ∀ a ∈ swap_offsets pitch height, a + 1 < pitch * height := by
  intro a ha
  simp only [swap_offsets, List.mem_flatMap, List.mem_map, List.mem_range] at ha
  obtain ⟨h, hh, i, hi, rfl⟩ := ha
  have h1 : (h + 1) * pitch ≤ height * pitch := Nat.mul_le_mul_right _ hh
  have h2 : (h + 1) * pitch = h * pitch + pitch := by ring
  have h3 : pitch * height = height * pitch := Nat.mul_comm _ _
  omega

theorem swap_offsets_far (pitch height : Nat) : (swap_offsets pitch height).Pairwise far := by
  unfold swap_offsets
  rw [List.pairwise_flatMap]
  constructor
  · intro h _
    rw [List.pairwise_map]
    exact (List.pairwise_lt_range _).imp (fun {i j} hij => Or.inl (by omega))
  · refine (List.pairwise_lt_range _).imp ?_
    intro h1 h2 hlt x hx y hy
    simp only [List.mem_map, List.mem_range] at hx hy
    obtain ⟨i, hi, rfl⟩ := hx
    obtain ⟨j, hj, rfl⟩ := hy
    have e1 : (h1 + 1) * pitch ≤ h2 * pitch := Nat.mul_le_mul_right _ hlt
    have e2 : (h1 + 1) * pitch = h1 * pitch + pitch := by ring
    left
    omega

theorem core_input_poll_body_should_exit (s : Host) (ev : gp_event) :
    (core_input_poll_body s ev).should_exit = 1 ∨
      (core_input_poll_body s ev).should_exit = s.should_exit := by
  have h := (handle_keyboard_callback_fields s ev).2.2.1
  simp only [core_input_poll_body]
  split_ifs <;> simp [Host.call, h]

theorem core_input_poll_keeps_exit (queue : List gp_event) (s : Host)
    (h : s.should_exit = 1) : (core_input_poll s queue).should_exit = 1 := by
  unfold core_input_poll
  induction queue generalizing s with
  | nil => simpa using h
  | cons ev rest ih =>
    rw [List.foldl_cons]
    apply ih
    rcases core_input_poll_body_should_exit s ev with h1 | h1
    · exact h1
    · rw [h1, h]

theorem core_input_poll_quit (queue : List gp_event) (s : Host) (ev : gp_event)
    (hev : ev ∈ queue) (ht : ev.type = GP_EV_SYS) (hc : ev.code = GP_EV_SYS_QUIT) :
    (core_input_poll s queue).should_exit = 1 := by
  induction queue generalizing s with
  | nil => simp at hev
  | cons e rest ih =>
    have hstep : core_input_poll s (e :: rest) = core_input_poll (core_input_poll_body s e) rest :=
      rfl
    rw [hstep]
    rcases List.mem_cons.mp hev with h | h
    · apply core_input_poll_keeps_exit
      subst h
      have h1 : ¬ GP_EV_SYS = GP_EV_REL := by decide
      have h2 : ¬ GP_EV_SYS = GP_EV_KEY := by decide
      simp [core_input_poll_body, h1, h2, ht, hc]
    · exact ih _ h

theorem handle_controller_info_types_should_exit (desc : List retro_controller_description)
    (n port : Nat) (acc : Bool × Host) :
    (handle_controller_info_types desc n port acc).2.should_exit = acc.2.should_exit := by
  unfold handle_controller_info_types
  induction List.range n generalizing acc with
  | nil => rfl
  | cons i is ih =>
    rw [List.foldl_cons, ih]
    split <;> simp [Host.call]

theorem handle_controller_info_should_exit (s : Host) (ports : List retro_controller_info) :
    (handle_controller_info s ports).should_exit = s.should_exit := by
  unfold handle_controller_info
  generalize hacc : ((false, s) : Bool × Host) = acc
  have hs : s.should_exit = acc.2.should_exit := by rw [← hacc]
  rw [hs]
  clear hs hacc
  generalize 0 = port
  induction ports generalizing acc port with
  | nil => rfl
  | cons p rest ih =>
    unfold handle_controller_info_loop
    split
    · rfl
    · rw [ih, handle_controller_info_types_should_exit]

theorem core_log_eq (s s1 : Host) (level : Nat) (h : core_log s level = some s1) : s1 = s := by
  unfold core_log at h
  split_ifs at h <;> simp_all

theorem core_environment_should_exit (s : Host) (cmd : Nat) (data : EnvData) (r : EnvResult)
    (h : core_environment s cmd data = some r) : r.host.should_exit = s.should_exit := by
  have hlog : core_log s RETRO_LOG_DEBUG = some s := rfl
  unfold core_environment at h
  rw [hlog] at h
  dsimp only [Option.map_some'] at h
  split_ifs at h
  all_goals
    have h2 := Option.some.inj h
    first
      | (rw [← h2]; done)
      | (rw [← h2]; rfl)
      | (rw [← h2]; exact handle_controller_info_should_exit _ _)

theorem heap_buf_eq_some (m : Heap) (p : Nat) (buf : List Nat) :
    heap_buf m p = some buf ↔ m[p]? = some (some buf) := by
  unfold heap_buf
  cases m[p]? with
  | none => simp
  | some o => cases o <;> simp

theorem heap_buf_lt (m : Heap) (p : Nat) (buf : List Nat) (h : heap_buf m p = some buf) :
    p < m.length := by
  rw [heap_buf_eq_some] at h
  by_contra hn
  rw [List.getElem?_eq_none (by omega)] at h
  exact absurd h (by simp)

theorem heap_buf_set_self (m : Heap) (p : Nat) (buf : List Nat) (h : p < m.length) :
    heap_buf (m.set p (some buf)) p = some buf := by
  rw [heap_buf_eq_some, List.getElem?_set]
  simp [h]

theorem heap_set_same (m : Heap) (p : Nat) (buf : List Nat) (h : heap_buf m p = some buf) :
    m.set p (some buf) = m := by
  rw [heap_buf_eq_some] at h
  apply List.ext_getElem?
  intro j
  rw [List.getElem?_set]
  by_cases hj : p = j
  · subst hj
    rw [h]
    have hlt := heap_buf_lt m p buf ((heap_buf_eq_some m p buf).mpr h)
    simp [hlt]
  · simp [hj]

theorem GP_SWAP_eq (m : Heap) (p a : Nat) (buf : List Nat) (hm : heap_buf m p = some buf)
    (ha : a + 1 < buf.length) :
    GP_SWAP m p a (a + 1) = some (m.set p (some (swap_at buf a))) := by
  have hp := heap_buf_lt m p buf hm
  have ha0 : a < buf.length := by omega
  have h1 : heap_load m p (a + 1) = some (buf.getD (a + 1) 0) := by
    simp [heap_load, hm, List.getD_eq_getElem?_getD, ha]
  have h2 : heap_load m p a = some (buf.getD a 0) := by
    simp [heap_load, hm, List.getD_eq_getElem?_getD, ha0]
  have h3 : heap_store m p (a + 1) (buf.getD a 0)
      = some (m.set p (some (buf.set (a + 1) (buf.getD a 0)))) := by
    simp [heap_store, hm, ha]
  have h4 : heap_store (m.set p (some (buf.set (a + 1) (buf.getD a 0)))) p a
      (buf.getD (a + 1) 0) = some (m.set p (some (swap_at buf a))) := by
    unfold heap_store
    rw [heap_buf_set_self m p _ hp]
    simp [ha0, swap_at, List.set_set]
  unfold GP_SWAP
  rw [h1, h2]
  simp only [Option.some_bind]
  rw [h3]
  simp only [Option.some_bind]
  exact h4

theorem GP_SWAP_foldlM (p : Nat) (f : Nat → Nat) (is : List Nat) (m : Heap) (buf : List Nat)
    (hm : heap_buf m p = some buf) (hb : ∀ i ∈ is, f i + 1 < buf.length) :
    is.foldlM (fun m1 i => GP_SWAP m1 p (f i) (f i + 1)) m
      = some (m.set p (some ((is.map f).foldl swap_at buf))) := by
  induction is generalizing m buf with
  | nil =>
    simp only [List.foldlM_nil, List.map_nil, List.foldl_nil]
    rw [heap_set_same m p buf hm]
    rfl
  | cons i is ih =>
    have hp := heap_buf_lt m p buf hm
    rw [List.foldlM_cons, GP_SWAP_eq m p (f i) buf hm (hb i (List.mem_cons_self _ _))]
    simp only [Option.some_bind, Option.bind_eq_bind, List.map_cons, List.foldl_cons]
    rw [ih (m.set p (some (swap_at buf (f i)))) (swap_at buf (f i))
      (heap_buf_set_self m p _ hp)
      (fun x hx => by rw [swap_at_length]; exact hb x (List.mem_cons_of_mem _ hx))]
    rw [List.set_set]

theorem core_video_refresh_swap_row_eq (p row pitch : Nat) (m : Heap) (buf : List Nat)
    (hm : heap_buf m p = some buf) (hb : row + pitch ≤ buf.length) :
    core_video_refresh_swap_row p row pitch m
      = some (m.set p (some
          (((List.range (pitch / 2)).map (fun i => row + 2 * i)).foldl swap_at buf))) := by
  unfold core_video_refresh_swap_row
  exact GP_SWAP_foldlM p (fun i => row + 2 * i) _ m buf hm
    (fun i hi => by
      rw [List.mem_range] at hi
      show row + 2 * i + 1 < buf.length
      omega)

theorem core_video_refresh_swap_rows_eq (p pitch : Nat) (hs : List Nat) (m : Heap)
    (buf : List Nat) (hm : heap_buf m p = some buf)
    (hb : ∀ h ∈ hs, h * pitch + pitch ≤ buf.length) :
    hs.foldlM (fun m1 h => core_video_refresh_swap_row p (h * pitch) pitch m1) m
      = some (m.set p (some
          ((hs.flatMap (fun h => (List.range (pitch / 2)).map (fun i => h * pitch + 2 * i))).foldl
            swap_at buf))) := by
  induction hs generalizing m buf with
  | nil =>
    simp only [List.foldlM_nil, List.flatMap_nil, List.foldl_nil]
    rw [heap_set_same m p buf hm]
    rfl
  | cons h hs ih =>
    have hp := heap_buf_lt m p buf hm
    rw [List.foldlM_cons,
      core_video_refresh_swap_row_eq p (h * pitch) pitch m buf hm (hb h (List.mem_cons_self _ _))]
    simp only [Option.some_bind, Option.bind_eq_bind, List.flatMap_cons, List.foldl_append]
    rw [ih _ _ (heap_buf_set_self m p _ hp)
      (fun x hx => by rw [foldl_swap_at_length]; exact hb x (List.mem_cons_of_mem _ hx))]
    rw [List.set_set]

theorem core_video_refresh_swap_eq (p pitch height : Nat) (m : Heap) (buf : List Nat)
    (hm : heap_buf m p = some buf) (hb : pitch * height ≤ buf.length) :
    core_video_refresh_swap p pitch height m
      = some (m.set p (some ((swap_offsets pitch height).foldl swap_at buf))) := by
  unfold core_video_refresh_swap swap_offsets
  apply core_video_refresh_swap_rows_eq p pitch _ m buf hm
  intro h hh
  rw [List.mem_range] at hh
  have h1 : (h + 1) * pitch ≤ height * pitch := Nat.mul_le_mul_right _ hh
  have h2 : (h + 1) * pitch = h * pitch + pitch := by ring
  have h3 : pitch * height = height * pitch := Nat.mul_comm _ _
  omega

theorem core_video_refresh_swap_twice (p pitch height : Nat) (m : Heap) (buf : List Nat)
    (hm : heap_buf m p = some buf) (hb : pitch * height ≤ buf.length) :
    ∃ m1, core_video_refresh_swap p pitch height m = some m1 ∧
      core_video_refresh_swap p pitch height m1 = some m := by
  have hp := heap_buf_lt m p buf hm
  refine ⟨_, core_video_refresh_swap_eq p pitch height m buf hm hb, ?_⟩
  rw [core_video_refresh_swap_eq p pitch height _ _ (heap_buf_set_self m p _ hp)
    (by rw [foldl_swap_at_length]; exact hb)]
  rw [foldl_swap_at_twice _ buf (swap_offsets_far pitch height)
    (fun a ha => lt_of_lt_of_le (swap_offsets_bound pitch height a ha) hb)]
  rw [List.set_set, heap_set_same m p buf hm]

theorem core_video_refresh_draw_fields (s s2 : Host) (bw bh : Nat) (pix : gp_pixmap)
    (w h : Nat) (hr : core_video_refresh_draw s bw bh pix w h = some s2) :
    s2.heap = s.heap ∧ s2.should_exit = s.should_exit := by
  unfold core_video_refresh_draw at hr
  dsimp only at hr
  split_ifs at hr
  all_goals
    have h2 := Option.some.inj hr
    rw [← h2]
    exact ⟨rfl, rfl⟩

theorem core_video_refresh_draw_isSome (s : Host) (bw bh : Nat) (pix : gp_pixmap)
    (w h : Nat) (hw : 0 < w) (hh : 0 < h) :
    ∃ s2, core_video_refresh_draw s bw bh pix w h = some s2 := by
  have hne : ¬ (w = 0 ∨ h = 0) := by omega
  unfold core_video_refresh_draw
  rw [if_neg hne]
  dsimp only
  split_ifs
  · exact ⟨_, rfl⟩
  · exact ⟨_, rfl⟩

theorem core_video_refresh_copy_should_exit (s : Host) (d h pitch : Nat)
    (r : Host × Option Nat) (hr : core_video_refresh_copy s d h pitch = some r) :
    r.1.should_exit = s.should_exit := by
  unfold core_video_refresh_copy at hr
  split_ifs at hr
  · dsimp only at hr
    obtain ⟨m1, _, hr1⟩ := Option.bind_eq_some.mp hr
    obtain ⟨m2, _, hr2⟩ := Option.map_eq_some'.mp hr1
    rw [← hr2]
  · have h2 := Option.some.inj hr
    rw [← h2]

theorem core_video_refresh_should_exit (s s1 : Host) (bw bh : Nat) (data : Option Nat)
    (w h pitch : Nat) (hr : core_video_refresh s bw bh data w h pitch = some s1) :
    s1.should_exit = s.should_exit := by
  unfold core_video_refresh at hr
  cases data with
  | none =>
    have h2 := Option.some.inj hr
    rw [← h2]
  | some d =>
    dsimp only at hr
    obtain ⟨r, hc, hr1⟩ := Option.bind_eq_some.mp hr
    obtain ⟨s2, hd, hr2⟩ := Option.map_eq_some'.mp hr1
    rw [← hr2]
    show s2.should_exit = s.should_exit
    rw [(core_video_refresh_draw_fields _ _ _ _ _ _ _ hd).2,
      core_video_refresh_copy_should_exit _ _ _ _ _ hc]
    rfl

theorem core_video_refresh_copy_rgb565 (s : Host) (d h pitch : Nat) (buf : List Nat)
    (hd : heap_buf s.heap d = some buf) (hlen : pitch * h ≤ buf.length)
    (hp : s.pixel_type = GP_PIXEL_RGB565) :
    core_video_refresh_copy s d h pitch
      = some ({ s with heap := s.heap ++
          [some ((swap_offsets pitch h).foldl swap_at (buf.take (pitch * h)))] },
          some s.heap.length) := by
  have hdl := heap_buf_lt _ _ _ hd
  have hm1 : heap_buf (s.heap ++ [some (List.replicate (pitch * h) 0)]) s.heap.length
      = some (List.replicate (pitch * h) 0) := by
    rw [heap_buf_eq_some]
    simp
  have hm2 : heap_buf (s.heap ++ [some (List.replicate (pitch * h) 0)]) d = some buf := by
    rw [heap_buf_eq_some, List.getElem?_append_left hdl]
    exact (heap_buf_eq_some _ _ _).mp hd
  have hcpy : memcpy (s.heap ++ [some (List.replicate (pitch * h) 0)]) s.heap.length d (pitch * h)
      = some (s.heap ++ [some (buf.take (pitch * h))]) := by
    unfold memcpy
    rw [hm1, hm2]
    simp [hlen]
  have hm3 : heap_buf (s.heap ++ [some (buf.take (pitch * h))]) s.heap.length
      = some (buf.take (pitch * h)) := by
    rw [heap_buf_eq_some]
    simp
  have hsw := core_video_refresh_swap_eq s.heap.length pitch h
    (s.heap ++ [some (buf.take (pitch * h))]) (buf.take (pitch * h)) hm3
    (by rw [List.length_take]; omega)
  unfold core_video_refresh_copy malloc
  rw [if_pos hp]
  dsimp only
  rw [hcpy]
  simp only [Option.some_bind]
  rw [hsw]
  simp

/-- C7: for every pitch (even or odd) and height, running the byte-pair swap
loop of `core_video_refresh` twice on a buffer of at least `pitch * height`
bytes gives back every byte of memory as it was. When `core_video_refresh` is
called with a frame buffer `data` of at least `pitch * height` bytes and a
frame of nonzero width and height, then in the `GP_PIXEL_RGB565` case the copy
step allocates a new buffer, which ends up holding the first `pitch * height`
frame bytes with the pairs `2i`, `2i+1` of each row exchanged, and every
buffer that existed before is as it was; and in every case
`core_video_refresh` returns with the frame buffer `data`, and every other
buffer that existed before the call, unchanged. -/
theorem core_video_refresh_swap_private (s : Host) (sw sh data w h pitch : Nat)
    (buf : List Nat) (hd : heap_buf s.heap data = some buf) (hlen : pitch * h ≤ buf.length)
    (hw : 0 < w) (hh : 0 < h) :
    (∀ (m : Heap) (p : Nat) (b : List Nat), heap_buf m p = some b → pitch * h ≤ b.length →
      ∃ m1, core_video_refresh_swap p pitch h m = some m1 ∧
        core_video_refresh_swap p pitch h m1 = some m) ∧
    (s.pixel_type = GP_PIXEL_RGB565 →
      ∃ m1, core_video_refresh_copy s data h pitch
          = some ({ s with heap := m1 }, some s.heap.length) ∧
        heap_buf m1 s.heap.length
          = some ((swap_offsets pitch h).foldl swap_at (buf.take (pitch * h))) ∧
        ∀ q, q < s.heap.length → m1[q]? = s.heap[q]?) ∧
    (∃ s1, core_video_refresh s sw sh (some data) w h pitch = some s1 ∧
      heap_buf s1.heap data = some buf ∧
      ∀ q, q < s.heap.length → s1.heap[q]? = s.heap[q]?) := by
  have hdl := heap_buf_lt _ _ _ hd
  refine ⟨?_, ?_, ?_⟩
  · intro m p b hb hl
    exact core_video_refresh_swap_twice p pitch h m b hb hl
  · intro hp
    refine ⟨_, core_video_refresh_copy_rgb565 s data h pitch buf hd hlen hp, ?_, ?_⟩
    · rw [heap_buf_eq_some]
      simp
    · intro q hq
      exact List.getElem?_append_left hq
  · have key : ∃ s1, core_video_refresh s sw sh (some data) w h pitch = some s1 ∧
        ∀ q, q < s.heap.length → s1.heap[q]? = s.heap[q]? := by
      unfold core_video_refresh
      dsimp only
      by_cases hp : s.pixel_type = GP_PIXEL_RGB565
      · have hc := core_video_refresh_copy_rgb565 (s.call (ExtCall.gp_fill 0)) data h pitch buf
          hd hlen hp
        rw [hc]
        simp only [Option.some_bind]
        obtain ⟨s2, hs2⟩ := core_video_refresh_draw_isSome
          { s.call (ExtCall.gp_fill 0) with heap := (s.call (ExtCall.gp_fill 0)).heap ++
            [some ((swap_offsets pitch h).foldl swap_at (buf.take (pitch * h)))] } sw sh
          (gp_pixmap_init_ex
            { s.call (ExtCall.gp_fill 0) with heap := (s.call (ExtCall.gp_fill 0)).heap ++
              [some ((swap_offsets pitch h).foldl swap_at (buf.take (pitch * h)))] }
            w h (s.call (ExtCall.gp_fill 0)).pixel_type pitch
            ((some (s.call (ExtCall.gp_fill 0)).heap.length).getD data)) w h hw hh
        have hf := (core_video_refresh_draw_fields _ _ _ _ _ _ _ hs2).1
        rw [hs2]
        refine ⟨_, rfl, ?_⟩
        intro q hq
        simp only [Host.call, free, hf]
        rw [List.getElem?_set_ne (by omega)]
        exact List.getElem?_append_left hq
      · have hc : core_video_refresh_copy (s.call (ExtCall.gp_fill 0)) data h pitch
            = some (s.call (ExtCall.gp_fill 0), none) := by
          have hp0 : ¬ (s.call (ExtCall.gp_fill 0)).pixel_type = GP_PIXEL_RGB565 := hp
          unfold core_video_refresh_copy
          rw [if_neg hp0]
        rw [hc]
        simp only [Option.some_bind]
        obtain ⟨s2, hs2⟩ := core_video_refresh_draw_isSome (s.call (ExtCall.gp_fill 0)) sw sh
          (gp_pixmap_init_ex (s.call (ExtCall.gp_fill 0)) w h
            (s.call (ExtCall.gp_fill 0)).pixel_type pitch ((none : Option Nat).getD data)) w h hw hh
        have hf := (core_video_refresh_draw_fields _ _ _ _ _ _ _ hs2).1
        rw [hs2]
        refine ⟨_, rfl, ?_⟩
        intro q _
        simp only [Host.call, free, hf]
    obtain ⟨s1, h1, h2⟩ := key
    refine ⟨s1, h1, ?_, h2⟩
    rw [heap_buf_eq_some, h2 data hdl]
    exact (heap_buf_eq_some _ _ _).mp hd

theorem core_video_refresh_swap_private_witness :
    core_video_refresh_swap 0 5 2 rgb565_frame.heap = some [some [2, 1, 4, 3, 5, 7, 6, 9, 8, 10]] ∧
    core_video_refresh_swap 0 5 2 [some [2, 1, 4, 3, 5, 7, 6, 9, 8, 10]] = some rgb565_frame.heap ∧
    (∃ s1, core_video_refresh rgb565_frame 640 480 (some 0) 2 2 5 = some s1 ∧
      heap_buf s1.heap 0 = some [1, 2, 3, 4, 5, 6, 7, 8, 9, 10] ∧
      ∀ q, q < rgb565_frame.heap.length → s1.heap[q]? = rgb565_frame.heap[q]?) :=
  ⟨by decide, by decide,
    (core_video_refresh_swap_private rgb565_frame 640 480 0 2 2 5 [1, 2, 3, 4, 5, 6, 7, 8, 9, 10]
      (by decide) (by decide) (by decide) (by decide)).2.2⟩

theorem audio_write_should_exit (s : Host) (buf : List Int) (frames : Nat) (r : Int) :
    (audio_write s buf frames r).2.should_exit = s.should_exit := by
  unfold audio_write
  split
  · rfl
  · dsimp only
    split <;> rfl

theorem CoreCall.run_should_exit (s s1 : Host) (c : CoreCall) (h : CoreCall.run s c = some s1)
    (hs : s.should_exit = 1) : s1.should_exit = 1 := by
  cases c with
  | environment cmd data =>
    obtain ⟨r, hr, hr1⟩ := Option.map_eq_some'.mp h
    rw [← hr1, core_environment_should_exit s cmd data r hr, hs]
  | video_refresh bw bh data w ht pitch =>
    rw [core_video_refresh_should_exit s s1 bw bh data w ht pitch h, hs]
  | input_poll queue =>
    have h2 := Option.some.inj h
    rw [← h2]
    exact core_input_poll_keeps_exit queue s hs
  | input_state port device index id =>
    obtain ⟨r, _, hr1⟩ := Option.map_eq_some'.mp h
    rw [← hr1, hs]
  | audio_sample left right w =>
    have h2 := Option.some.inj h
    rw [← h2]
    exact (audio_write_should_exit s [left, right] 1 w).trans hs
  | audio_sample_batch data frames w =>
    have h2 := Option.some.inj h
    rw [← h2]
    exact (audio_write_should_exit s data frames w).trans hs
  | log level =>
    rw [core_log_eq s s1 level h, hs]

theorem retro_run_keeps_exit (calls : List CoreCall) (s s1 : Host)
    (h : retro_run s calls = some s1) (hs : s.should_exit = 1) : s1.should_exit = 1 := by
  unfold retro_run at h
  induction calls generalizing s with
  | nil =>
    have h2 := Option.some.inj h
    rw [← h2]
    exact hs
  | cons c cs ih =>
    rw [List.foldlM_cons] at h
    obtain ⟨s2, h2, h3⟩ := Option.bind_eq_some.mp h
    exact ih s2 h3 (CoreCall.run_should_exit s s2 c h2 hs)

theorem retro_run_quit (calls : List CoreCall) (s s1 : Host) (queue : List gp_event)
    (ev : gp_event) (hq : CoreCall.input_poll queue ∈ calls) (hev : ev ∈ queue)
    (ht : ev.type = GP_EV_SYS) (hc : ev.code = GP_EV_SYS_QUIT)
    (h : retro_run s calls = some s1) : s1.should_exit = 1 := by
  induction calls generalizing s with
  | nil => simp at hq
  | cons c cs ih =>
    unfold retro_run at h
    rw [List.foldlM_cons] at h
    obtain ⟨s2, h2, h3⟩ := Option.bind_eq_some.mp h
    rcases List.mem_cons.mp hq with hq1 | hq1
    · apply retro_run_keeps_exit cs s2 s1 h3
      rw [← hq1] at h2
      have h4 := Option.some.inj h2
      rw [← h4]
      exact core_input_poll_quit queue s ev hev ht hc
    · exact ih s2 hq1 h3

theorem main_loop_exit_set (s : Host) (steps : List (List CoreCall)) (hs : s.should_exit ≠ 0) :
    main_loop s steps = (0, some s) := by
  cases steps with
  | nil => rfl
  | cons step rest =>
    unfold main_loop
    rw [if_pos hs]

/-- C8: take a run of the loop of `main` in which the core, during one of its
steps, calls `core_input_poll` and the poll drains a `GP_EV_SYS_QUIT` event.
That poll leaves `should_exit` at 1 whatever the state before; no call that the
core can make into the front end changes `should_exit` from 1; so the step in
which the poll happened ends with `should_exit` at 1, and the loop calls
`retro_run` no more after that step: the number of calls of `retro_run` is at
most the number of steps before that step plus one, which is less than the
one further step the claim allows. When the loop ends with the process alive,
`should_exit` is set. -/
theorem main_loop_quit (s : Host) (before : List (List CoreCall)) (step : List CoreCall)
    (after : List (List CoreCall)) (queue : List gp_event) (ev : gp_event)
    (hq : CoreCall.input_poll queue ∈ step) (hev : ev ∈ queue)
    (ht : ev.type = GP_EV_SYS) (hc : ev.code = GP_EV_SYS_QUIT) :
    (∀ s0, (core_input_poll s0 queue).should_exit = 1) ∧
    (∀ s0 s1 c, s0.should_exit = 1 → CoreCall.run s0 c = some s1 → s1.should_exit = 1) ∧
    (∀ s0 s1, retro_run s0 step = some s1 → s1.should_exit = 1) ∧
    (main_loop s (before ++ step :: after)).1 ≤ before.length + 1 ∧
    (∀ s1, (main_loop s (before ++ step :: after)).2 = some s1 → s1.should_exit ≠ 0) := by
  refine ⟨fun s0 => core_input_poll_quit queue s0 ev hev ht hc,
    fun s0 s1 c h0 h1 => CoreCall.run_should_exit s0 s1 c h1 h0,
    fun s0 s1 h => retro_run_quit step s0 s1 queue ev hq hev ht hc h, ?_⟩
  induction before generalizing s with
  | nil =>
    rw [List.nil_append]
    unfold main_loop
    by_cases hs : s.should_exit ≠ 0
    · rw [if_pos hs]
      exact ⟨by simp, fun s1 h1 => by rw [← Option.some.inj h1]; exact hs⟩
    · rw [if_neg hs]
      cases hr : retro_run s step with
      | none => exact ⟨by simp, fun s1 h1 => by simp at h1⟩
      | some s2 =>
        have h2 : s2.should_exit = 1 := retro_run_quit step s s2 queue ev hq hev ht hc hr
        have h3 : s2.should_exit ≠ 0 := by rw [h2]; decide
        dsimp only
        rw [main_loop_exit_set s2 after h3]
        exact ⟨by simp, fun s1 h1 => by rw [← Option.some.inj h1]; exact h3⟩
  | cons b bs ih =>
    rw [List.cons_append]
    unfold main_loop
    by_cases hs : s.should_exit ≠ 0
    · rw [if_pos hs]
      exact ⟨by simp, fun s1 h1 => by rw [← Option.some.inj h1]; exact hs⟩
    · rw [if_neg hs]
      cases hr : retro_run s b with
      | none => exact ⟨by simp, fun s1 h1 => by simp at h1⟩
      | some s2 =>
        dsimp only
        have h2 := ih s2
        exact ⟨by simp only [List.length_cons]; omega, h2.2⟩

theorem main_loop_quit_witness :
    (main_loop Host.start
      ([[CoreCall.input_poll []]] ++
        [CoreCall.input_poll [quit_event], CoreCall.input_state 0 RETRO_DEVICE_JOYPAD 0 0] ::
        [[CoreCall.input_poll []], [CoreCall.input_poll []]])).1 ≤ 2 ∧
    (main_loop Host.start
      ([[CoreCall.input_poll []]] ++
        [CoreCall.input_poll [quit_event], CoreCall.input_state 0 RETRO_DEVICE_JOYPAD 0 0] ::
        [[CoreCall.input_poll []], [CoreCall.input_poll []]])).1 = 2 :=
  ⟨(main_loop_quit Host.start [[CoreCall.input_poll []]]
      [CoreCall.input_poll [quit_event], CoreCall.input_state 0 RETRO_DEVICE_JOYPAD 0 0]
      [[CoreCall.input_poll []], [CoreCall.input_poll []]] [quit_event] quit_event
      (by decide) (by decide) rfl rfl).2.2.2.1, by decide⟩

end Gparch
